import Mathlib

/-!
# Selekt: the JNI bridge to SQLite3 (`selekt-sqlite3/sqlite3_jni.cpp`)

A shallow embedding of the exported JNI functions, and of the mock `SystemProperties_get`
of `Selektric/native_mocks.cpp`.  Each C++ function becomes a Lean function that passes a
`World` explicitly.  The world holds

* the state of the wrapped SQLite3 library (an arbitrary type `σ`; the library itself is
  an external dependency and appears as a record `Sqlite3 σ` of its entry points),
* the trace of every library entry point and every relevant JNI call made so far,
* a script deciding which of the upcoming JNI calls that may yield `NULL` do so,
* the indeterminate contents of uninitialised automatic storage.

Conventions: `jint`, `jlong`, `jbyte` are `Int` (the wrapper does no arithmetic that
can overflow on them), a `char` buffer is a `List Char`, a nullable C pointer is an
`Option`, memory is little-endian (all ABIs the library is built for), and a wrapper
that itself dereferences a bad pointer returns a `Fault`.  A handle is the `jlong` the
Java side holds; the casts between that `jlong` and the library's pointer are the
identity.  `FindClass` of the three `java/lang` exception classes is taken to succeed,
and a pending exception does not change what later JNI calls do.

The file has three parts: the embedding, the vocabulary and the concrete library
instance used to state and instantiate theorems, and the theorems.
-/

namespace Selekt

abbrev jint := Int
abbrev jlong := Int
abbrev jsize := Int
abbrev jbyte := Int
/-- The IEEE-754 bit pattern of a `jdouble`; the wrapper never computes with it. -/
abbrev jdouble := Nat
abbrev jboolean := Bool
abbrev jstring := String
abbrev jbyteArray := List jbyte
/-- The raw bytes (each below 256) of a primitive Java array, as
`GetPrimitiveArrayCritical` exposes them. -/
abbrev jarray := List Nat

/-- The terminating character of a C string. -/
def NUL : Char := Char.ofNat 0

/-- Release modes of `ReleaseByteArrayElements` (`jni.h`): `0` copies the native buffer
back into the Java array, `JNI_ABORT` discards it. -/
inductive ReleaseMode
  | copyBack
  | JNI_ABORT
  deriving DecidableEq, Repr

/-- Undefined behaviour committed by the wrapper's own code. -/
inductive Fault
  | nullDereference
  | outOfBounds
  deriving DecidableEq, Repr

/-- Entry points of the wrapped library, with the arguments the wrapper passed. -/
inductive Call
  | sqlite3_exec (db : jlong) (sql : Option String)
  | sqlite3_key (db : jlong) (key : Option (List jbyte)) (n : jint)
  | sqlite3_rekey (db : jlong) (key : Option (List jbyte)) (n : jint)
  | sqlite3_open_v2 (filename : Option String) (flags : jint)
  | sqlite3_prepare_v2 (db : jlong) (sql : Option String) (nByte : jint)
  | sqlite3_blob_open (db : jlong) (name table column : Option String) (row : jlong)
      (flags : jint)
  | sqlite3_blob_bytes (blob : jlong)
  | sqlite3_blob_close (blob : jlong)
  | sqlite3_blob_read (blob : jlong) (n : jint) (iOffset : jint)
  | sqlite3_blob_reopen (blob : jlong) (row : jlong)
  | sqlite3_blob_write (blob : jlong) (z : Option (List jbyte)) (n : jint) (iOffset : jint)
  | sqlite3_bind_blob (stmt : jlong) (index : jint) (value : Option (List jbyte)) (n : jint)
  | sqlite3_bind_double (stmt : jlong) (index : jint) (value : jdouble)
  | sqlite3_bind_int (stmt : jlong) (index : jint) (value : jint)
  | sqlite3_bind_int64 (stmt : jlong) (index : jint) (value : jlong)
  | sqlite3_bind_null (stmt : jlong) (index : jint)
  | sqlite3_bind_parameter_count (stmt : jlong)
  | sqlite3_bind_text (stmt : jlong) (index : jint) (value : Option String) (n : jint)
  | sqlite3_bind_zeroblob (stmt : jlong) (index : jint) (n : jint)
  | sqlite3_clear_bindings (stmt : jlong)
  | sqlite3_close_v2 (db : jlong)
  | sqlite3_column_blob (stmt : jlong) (index : jint)
  | sqlite3_column_bytes (stmt : jlong) (index : jint)
  | sqlite3_column_double (stmt : jlong) (index : jint)
  | sqlite3_column_int (stmt : jlong) (index : jint)
  | sqlite3_column_int64 (stmt : jlong) (index : jint)
  | sqlite3_column_text (stmt : jlong) (index : jint)
  | sqlite3_db_status (db : jlong) (op : jint) (resetFlag : jboolean)
  | sqlite3_finalize (stmt : jlong)
  | sqlite3_reset (stmt : jlong)
  | sqlite3_step (stmt : jlong)
  | sqlite3_wal_checkpoint_v2 (db : jlong) (name : Option String) (mode : jint)
  | sqlite3_trace_v2 (db : jlong) (mask : Nat)
  deriving DecidableEq, Repr

/-- What the wrapper does that an observer can see: library calls and JNI calls. -/
inductive Event
  | call (c : Call)
  | ThrowNew (cls : String) (message : String)
  | GetByteArrayElements (array : jbyteArray)
  | ReleaseByteArrayElements (array : jbyteArray) (mode : ReleaseMode)
  | log (record : String)
  deriving DecidableEq, Repr

/-- The world a JNI function runs in. -/
structure World (σ : Type) where
  /-- State of the wrapped library. -/
  engine : σ
  /-- Events so far, oldest first. -/
  trace : List Event := []
  /-- For each upcoming JNI call that may yield `NULL`: `true` when it succeeds.  Once
  the script is used up every call succeeds. -/
  script : List Bool := []
  /-- Contents of uninitialised automatic storage, by position. -/
  indeterminate : Nat → Int := fun _ => 0
  /-- Number of bytes of a `size_t` (8 on arm64-v8a and x86_64, 4 on armeabi-v7a). -/
  sizeofSizeT : Nat := 8

namespace World

variable {σ : Type}

/-- Appends an event to the trace. -/
def emit (w : World σ) (e : Event) : World σ :=
  { w with trace := w.trace ++ [e] }

/-- Takes the scripted outcome of the next JNI call that may yield `NULL`. -/
def next (w : World σ) : Bool × World σ :=
  match w.script with
  | [] => (true, w)
  | b :: bs => (b, { w with script := bs })

/-- The library calls of a trace, in order. -/
def calls (t : List Event) : List Call :=
  t.filterMap fun e => match e with
    | Event.call c => some c
    | _ => none

end World

/-! ## `bloomberg/Throws.h` -/

variable {σ : Type}

/-- `env->ThrowNew(env->FindClass(cls), message)`. -/
def ThrowNew (w : World σ) (cls message : String) : World σ :=
  w.emit (Event.ThrowNew cls message)

def throwOutOfMemoryError (w : World σ) (message : String) : World σ :=
  ThrowNew w "java/lang/OutOfMemoryError" message

def throwIllegalArgumentException (w : World σ) (message : String) : World σ :=
  ThrowNew w "java/lang/IllegalArgumentException" message

def throwIllegalStateException (w : World σ) (message : String) : World σ :=
  ThrowNew w "java/lang/IllegalStateException" message

/-! ## JNI primitives used by the wrapper -/

/-- `env->GetByteArrayElements(j, nullptr)`: the elements, or `NULL`. -/
def GetByteArrayElements (w : World σ) (j : jbyteArray) : World σ × Option (List jbyte) :=
  let (ok, w) := w.next
  (w.emit (Event.GetByteArrayElements j), if ok then some j else none)

/-- `env->ReleaseByteArrayElements(j, p, mode)`. -/
def ReleaseByteArrayElements (w : World σ) (j : jbyteArray) (mode : ReleaseMode) : World σ :=
  w.emit (Event.ReleaseByteArrayElements j mode)

/-- `env->GetStringUTFChars(s, nullptr)`: the characters, or `NULL`. -/
def GetStringUTFChars (w : World σ) (s : jstring) : World σ × Option String :=
  let (ok, w) := w.next
  (w, if ok then some s else none)

/-- `env->GetStringUTFLength(s)`: the number of bytes of the modified UTF-8 form. -/
def GetStringUTFLength (s : jstring) : jsize :=
  (s.toList.map fun c => if c.toNat = 0 then 2 else if c.toNat < 128 then 1
    else if c.toNat < 2048 then 2 else if c.toNat < 65536 then 3 else 6).sum

/-- `env->GetPrimitiveArrayCritical(array, nullptr)`: the elements, or `NULL`. -/
def GetPrimitiveArrayCritical {α : Type} (w : World σ) (array : List α) :
    World σ × Option (List α) :=
  let (ok, w) := w.next
  (w, if ok then some array else none)

/-- `env->NewByteArray(size)`: a zero-filled array, or `NULL`. -/
def NewByteArray (w : World σ) (size : jsize) : World σ × Option jbyteArray :=
  let (ok, w) := w.next
  (w, if ok then some (List.replicate size.toNat 0) else none)

/-- `env->NewStringUTF(bytes)`: null for a null `bytes` (so the Android runtime and
HotSpot implement it), else the new string, or `NULL` when it cannot be constructed. -/
def NewStringUTF (w : World σ) (bytes : Option String) : World σ × Option jstring :=
  match bytes with
  | none => (w, none)
  | some s =>
    let (ok, w) := w.next
    (w, if ok then some s else none)

/-! ## `bloomberg/log.h` -/

/-- `LOG_D(format, ...)`: a log record when the build defines `SELEKT_LOG`, nothing
otherwise.  A record is identified by its format. -/
def LOG_D (SELEKT_LOG : Bool) (w : World σ) (format : String) : World σ :=
  if SELEKT_LOG then w.emit (Event.log format) else w

/-! ## `bloomberg/AutoJByteArray.h` -/

structure AutoJByteArray where
  mJArray : jbyteArray
  mpBytes : Option (List jbyte)
  mLength : jsize
  deriving DecidableEq, Repr

namespace AutoJByteArray

/-- The constructor: obtains the elements and raises `OutOfMemoryError` when there are
none; construction goes on either way. -/
def new (w : World σ) (j : jbyteArray) (length : jint) : World σ × AutoJByteArray :=
  let (w, p) := GetByteArrayElements w j
  let w := if p.isNone then throwOutOfMemoryError w "GetByteArrayElements" else w
  (w, { mJArray := j, mpBytes := p, mLength := length })

/-- The destructor. -/
def delete (w : World σ) (a : AutoJByteArray) : World σ :=
  ReleaseByteArrayElements w a.mJArray ReleaseMode.JNI_ABORT

/-- The `operator const jbyte*()`. -/
def ptr (a : AutoJByteArray) : Option (List jbyte) := a.mpBytes

def length (a : AutoJByteArray) : jsize := a.mLength

/-- The expression `key[i]`: converts to `const jbyte*`, then indexes. -/
def index (a : AutoJByteArray) (i : Nat) : Except Fault jbyte :=
  match a.ptr with
  | none => Except.error Fault.nullDereference
  | some bytes =>
    match bytes.get? i with
    | none => Except.error Fault.outOfBounds
    | some b => Except.ok b

end AutoJByteArray

/-! ## The wrapped library -/

/-- The entry points of SQLite3 that the wrapper calls, over a library state `σ`, and
the constants of `sqlite3.h` it names.  Every entry point returns the new library
state with its C return value; an out-parameter is returned as an `Option`, `none`
when the library stored nothing through it. -/
structure Sqlite3 (σ : Type) where
  SQLITE_OK : jint := 0
  SQLITE_ERROR : jint := 1
  SQLITE_BUSY : jint := 5
  SQLITE_MISUSE : jint := 21
  SQLITE_RANGE : jint := 25
  SQLITE_ROW : jint := 100
  SQLITE_DONE : jint := 101
  SQLITE_TRACE_STMT : Nat := 1
  SQLITE_TRACE_PROFILE : Nat := 2
  SQLITE_TRACE_ROW : Nat := 4
  SQLITE_TRACE_CLOSE : Nat := 8
  sqlite3_exec : σ → jlong → Option String → σ × jint := fun s _ _ => (s, 0)
  sqlite3_key : σ → jlong → Option (List jbyte) → jint → σ × jint := fun s _ _ _ => (s, 0)
  sqlite3_rekey : σ → jlong → Option (List jbyte) → jint → σ × jint :=
    fun s _ _ _ => (s, 0)
  sqlite3_open_v2 : σ → Option String → jint → σ × jint × Option jlong :=
    fun s _ _ => (s, 0, none)
  sqlite3_prepare_v2 : σ → jlong → Option String → jint → σ × jint × Option jlong :=
    fun s _ _ _ => (s, 0, none)
  sqlite3_blob_open : σ → jlong → Option String → Option String → Option String → jlong →
    jint → σ × jint × Option jlong := fun s _ _ _ _ _ _ => (s, 0, none)
  sqlite3_blob_bytes : σ → jlong → σ × jint := fun s _ => (s, 0)
  sqlite3_blob_close : σ → jlong → σ × jint := fun s _ => (s, 0)
  /-- Reads `n` bytes at `iOffset`; the third component is what it stored into the
  caller's buffer. -/
  sqlite3_blob_read : σ → jlong → jint → jint → σ × jint × Option (List jbyte) :=
    fun s _ _ _ => (s, 0, none)
  sqlite3_blob_reopen : σ → jlong → jlong → σ × jint := fun s _ _ => (s, 0)
  sqlite3_blob_write : σ → jlong → Option (List jbyte) → jint → jint → σ × jint :=
    fun s _ _ _ _ => (s, 0)
  sqlite3_bind_blob : σ → jlong → jint → Option (List jbyte) → jint → σ × jint :=
    fun s _ _ _ _ => (s, 0)
  sqlite3_bind_double : σ → jlong → jint → jdouble → σ × jint := fun s _ _ _ => (s, 0)
  sqlite3_bind_int : σ → jlong → jint → jint → σ × jint := fun s _ _ _ => (s, 0)
  sqlite3_bind_int64 : σ → jlong → jint → jlong → σ × jint := fun s _ _ _ => (s, 0)
  sqlite3_bind_null : σ → jlong → jint → σ × jint := fun s _ _ => (s, 0)
  sqlite3_bind_parameter_count : σ → jlong → σ × jint := fun s _ => (s, 0)
  sqlite3_bind_text : σ → jlong → jint → Option String → jint → σ × jint :=
    fun s _ _ _ _ => (s, 0)
  sqlite3_bind_zeroblob : σ → jlong → jint → jint → σ × jint := fun s _ _ _ => (s, 0)
  sqlite3_clear_bindings : σ → jlong → σ × jint := fun s _ => (s, 0)
  sqlite3_close_v2 : σ → jlong → σ × jint := fun s _ => (s, 0)
  /-- The pointer to the blob's bytes, or `NULL`. -/
  sqlite3_column_blob : σ → jlong → jint → σ × Option (List jbyte) := fun s _ _ => (s, none)
  sqlite3_column_bytes : σ → jlong → jint → σ × jint := fun s _ _ => (s, 0)
  sqlite3_column_double : σ → jlong → jint → σ × jdouble := fun s _ _ => (s, 0)
  sqlite3_column_int : σ → jlong → jint → σ × jint := fun s _ _ => (s, 0)
  sqlite3_column_int64 : σ → jlong → jint → σ × jlong := fun s _ _ => (s, 0)
  sqlite3_column_text : σ → jlong → jint → σ × Option String := fun s _ _ => (s, none)
  /-- The values stored through `pCur` and `pHiwtr`, if any. -/
  sqlite3_db_status : σ → jlong → jint → jboolean → σ × jint × Option jint × Option jint :=
    fun s _ _ _ => (s, 0, none, none)
  sqlite3_finalize : σ → jlong → σ × jint := fun s _ => (s, 0)
  sqlite3_reset : σ → jlong → σ × jint := fun s _ => (s, 0)
  sqlite3_step : σ → jlong → σ × jint := fun s _ => (s, 0)
  sqlite3_wal_checkpoint_v2 : σ → jlong → Option String → jint → σ × jint :=
    fun s _ _ _ => (s, 0)
  /-- What `sqlite3_wal_checkpoint_v2` stores through `pnLog` and `pnCkpt` when they are
  not null: the size of the log in frames and the number of frames checkpointed. -/
  wal_checkpoint_counts : σ → jlong → Option String → jint → jint × jint :=
    fun _ _ _ _ => (0, 0)
  /-- Registers the trace callback for the events of `mask`. -/
  sqlite3_trace_v2 : σ → jlong → Nat → σ × jint := fun s _ _ => (s, 0)

/-- Records a library call and installs the library's new state. -/
def World.invoke (w : World σ) (c : Call) (s : σ) : World σ :=
  { w with engine := s, trace := w.trace ++ [Event.call c] }

/-! ## C library helpers on `char` buffers -/

/-- Stores `data` into `buf` from position `pos` on. -/
def store (buf : List Char) (pos : Nat) (data : List Char) : List Char :=
  buf.take pos ++ data ++ buf.drop (pos + data.length)

/-- `std::strcpy(buf + pos, s)`: the characters of `s`, then the terminator. -/
def strcpy (buf : List Char) (pos : Nat) (s : String) : List Char :=
  store buf pos (s.toList ++ [NUL])

/-- The conversion `%02x` of an `unsigned int`: lowercase hexadecimal, at least two
digits, padded with zeros on the left. -/
def format02x (u : Nat) : List Char :=
  let digits := Nat.toDigits 16 u
  List.replicate (2 - digits.length) '0' ++ digits

/-- A `jbyte` (a `signed char`) passed through `...`: promoted to `int`, then read by
`%x` as the `unsigned int` with the same 32 bits. -/
def promote (b : jbyte) : Nat := (b % 2 ^ 32).toNat

/-- `std::snprintf(buf + pos, size, "%02x", b)`: at most `size - 1` characters of the
conversion, then the terminator; nothing when `size` is 0. -/
def snprintf02x (buf : List Char) (pos : Nat) (size : Nat) (b : jbyte) : List Char :=
  if size = 0 then buf
  else store buf pos ((format02x (promote b)).take (size - 1) ++ [NUL])

/-- The C string that starts at `buf`: the characters before the first terminator. -/
def cstring (buf : List Char) : String :=
  String.mk (buf.takeWhile fun c => c != NUL)

/-- `std::fill(buf, buf + n, 0)`. -/
def fill (buf : List Char) (n : Nat) : List Char :=
  List.replicate n NUL ++ buf.drop n

/-! ## `rawKey` -/

/-- What `rawKey` leaves behind: its return value and the bytes of its local buffer
`sql` at the moment it returns (empty when the buffer was never allocated). -/
structure RawKeyResult where
  result : jint
  sql : List Char
  deriving DecidableEq, Repr

/-- The loop `for (i = 0; i < keyLength; ++i) snprintf(hex + 2 * i, 3, "%02x", key[i])`
with `hex = sql + hexAt`. -/
def rawKeyLoop (key : AutoJByteArray) (keyLength : Nat) (hexAt : Nat) (sql : List Char) :
    Except Fault (List Char) :=
  (List.range keyLength).foldlM
    (fun sql i => do
      let b ← key.index i
      pure (snprintf02x sql (hexAt + 2 * i) 3 b))
    sql

def rawKey (E : Sqlite3 σ) (w : World σ) (jdb : jlong) (jkey : jbyteArray) (keyLength : jint) :
    Except Fault (World σ × RawKeyResult) :=
  if keyLength ≠ 32 then
    let w := throwIllegalArgumentException w "Key must be 32 bytes in size."
    pure (w, { result := E.SQLITE_ERROR, sql := [] })
  else do
    let (w, key) := AutoJByteArray.new w jkey keyLength
    let pfx := "PRAGMA key=\"x'"
    let suffix := "'\""
    let length := pfx.length + (2 * keyLength).toNat + suffix.length
    let sql := (List.range (length + 1)).map fun i => Char.ofNat (w.indeterminate i).toNat
    let sql := sql.set length NUL
    let sql := strcpy sql 0 pfx
    let sql ← rawKeyLoop key keyLength.toNat pfx.length sql
    let sql := strcpy sql (length - suffix.length) suffix
    let (s, result) := E.sqlite3_exec w.engine jdb (some (cstring sql))
    let w := w.invoke (Call.sqlite3_exec jdb (some (cstring sql))) s
    let sql := fill sql (length + 1)
    let w := key.delete w
    pure (w, { result := result, sql := sql })

/-! ## `updateHolder` and `newByteArray` -/

/-- The `n` low bytes of `v`, least significant first. -/
def leBytes : Nat → Nat → List Nat
  | 0, _ => []
  | n + 1, v => v % 256 :: leBytes n (v / 256)

/-- The number whose little-endian bytes are `bs`. -/
def ofLE : List Nat → Nat
  | [] => 0
  | b :: bs => b + 256 * ofLE bs

/-- `reinterpret_cast<size_t>(p)` for a pointer whose value as a `jlong` is `p`. -/
def toSizeT (w : World σ) (p : jlong) : Nat :=
  (p % 2 ^ (8 * w.sizeofSizeT)).toNat

/-- Element `i` of a `jlongArray` given by its raw bytes. -/
def jlongAt (a : jarray) (i : Nat) : Int :=
  let v := ofLE ((a.drop (8 * i)).take 8)
  if v < 2 ^ 63 then (v : Int) else (v : Int) - 2 ^ 64

/-- Element `i` of a `jintArray` given by its raw bytes. -/
def jintAt (a : jarray) (i : Nat) : Int :=
  let v := ofLE ((a.drop (4 * i)).take 4)
  if v < 2 ^ 31 then (v : Int) else (v : Int) - 2 ^ 32

/-- `updateHolder(env, array, offset, p)`: views the array's storage as `size_t[]` and
stores the pointer value at index `offset`; the release with mode `0` makes the store
visible in the Java array.  Returns the array's bytes after the call. -/
def updateHolder (w : World σ) (array : jarray) (offset : Nat) (p : jlong) :
    Except Fault (World σ × jarray) :=
  let (w, pp) := GetPrimitiveArrayCritical w array
  match pp with
  | none => pure (throwOutOfMemoryError w "GetPrimitiveArrayCritical", array)
  | some bytes =>
    let pos := offset * w.sizeofSizeT
    if pos + w.sizeofSizeT ≤ bytes.length then
      pure (w, bytes.take pos ++ leBytes w.sizeofSizeT (toSizeT w p)
        ++ bytes.drop (pos + w.sizeofSizeT))
    else
      throw Fault.outOfBounds

/-- `newByteArray(env, p, size)`: a new Java array holding the `size` bytes at `p`, or
`nullptr` with a pending `OutOfMemoryError`. -/
def newByteArray (w : World σ) (p : List jbyte) (size : jsize) :
    Except Fault (World σ × Option jbyteArray) :=
  let (w, array) := NewByteArray w size
  match array with
  | none => pure (throwOutOfMemoryError w "NewByteArray", none)
  | some array =>
    if size > 0 then
      let (w, buffer) := GetPrimitiveArrayCritical w array
      match buffer with
      | none => throw Fault.nullDereference
      | some buffer =>
        if size.toNat ≤ p.length then
          pure (w, some (p.take size.toNat ++ buffer.drop size.toNat))
        else
          throw Fault.outOfBounds
    else
      pure (w, some array)

/-! ## The exported functions -/

def bindBlob (E : Sqlite3 σ) (w : World σ) (jstatement : jlong) (index : jint)
    (jvalue : jbyteArray) (length : jint) : World σ × jint :=
  let (w, value) := AutoJByteArray.new w jvalue length
  let (s, result) := E.sqlite3_bind_blob w.engine jstatement index value.ptr value.length
  let w := w.invoke (Call.sqlite3_bind_blob jstatement index value.ptr value.length) s
  (value.delete w, result)

def bindDouble (E : Sqlite3 σ) (w : World σ) (jstatement : jlong) (index : jint)
    (jvalue : jdouble) : World σ × jint :=
  let (s, result) := E.sqlite3_bind_double w.engine jstatement index jvalue
  (w.invoke (Call.sqlite3_bind_double jstatement index jvalue) s, result)

def bindInt (E : Sqlite3 σ) (w : World σ) (jstatement : jlong) (index : jint)
    (jvalue : jint) : World σ × jint :=
  let (s, result) := E.sqlite3_bind_int w.engine jstatement index jvalue
  (w.invoke (Call.sqlite3_bind_int jstatement index jvalue) s, result)

def bindInt64 (E : Sqlite3 σ) (w : World σ) (jstatement : jlong) (index : jint)
    (jvalue : jlong) : World σ × jint :=
  let (s, result) := E.sqlite3_bind_int64 w.engine jstatement index jvalue
  (w.invoke (Call.sqlite3_bind_int64 jstatement index jvalue) s, result)

def bindNull (E : Sqlite3 σ) (w : World σ) (jstatement : jlong) (index : jint) :
    World σ × jint :=
  let (s, result) := E.sqlite3_bind_null w.engine jstatement index
  (w.invoke (Call.sqlite3_bind_null jstatement index) s, result)

def bindParameterCount (E : Sqlite3 σ) (w : World σ) (jstatement : jlong) : World σ × jint :=
  let (s, result) := E.sqlite3_bind_parameter_count w.engine jstatement
  (w.invoke (Call.sqlite3_bind_parameter_count jstatement) s, result)

def bindText (E : Sqlite3 σ) (w : World σ) (jstatement : jlong) (index : jint)
    (jvalue : jstring) : World σ × jint :=
  let (w, value) := GetStringUTFChars w jvalue
  let n := GetStringUTFLength jvalue
  let (s, result) := E.sqlite3_bind_text w.engine jstatement index value n
  (w.invoke (Call.sqlite3_bind_text jstatement index value n) s, result)

def bindZeroBlob (E : Sqlite3 σ) (w : World σ) (jstatement : jlong) (index : jint)
    (length : jint) : World σ × jint :=
  let (s, result) := E.sqlite3_bind_zeroblob w.engine jstatement index length
  (w.invoke (Call.sqlite3_bind_zeroblob jstatement index length) s, result)

def blobBytes (E : Sqlite3 σ) (w : World σ) (jblob : jlong) : World σ × jint :=
  let (s, result) := E.sqlite3_blob_bytes w.engine jblob
  (w.invoke (Call.sqlite3_blob_bytes jblob) s, result)

def blobClose (E : Sqlite3 σ) (w : World σ) (jblob : jlong) : World σ × jint :=
  let (s, result) := E.sqlite3_blob_close w.engine jblob
  (w.invoke (Call.sqlite3_blob_close jblob) s, result)

/-- What a function with a holder leaves behind: the holder's bytes and the return
value. -/
structure Held where
  holder : jarray
  result : jint
  deriving DecidableEq, Repr

def blobOpen (E : Sqlite3 σ) (w : World σ) (jdb : jlong) (jname jtable jcolumn : jstring)
    (jrow : jlong) (jflags : jint) (jholder : jarray) : Except Fault (World σ × Held) := do
  let blob := w.indeterminate 0
  let (w, name) := GetStringUTFChars w jname
  let (w, table) := GetStringUTFChars w jtable
  let (w, column) := GetStringUTFChars w jcolumn
  let (s, result, out) := E.sqlite3_blob_open w.engine jdb name table column jrow jflags
  let w := w.invoke (Call.sqlite3_blob_open jdb name table column jrow jflags) s
  let blob := out.getD blob
  let (w, jholder) ← updateHolder w jholder 0 blob
  pure (w, { holder := jholder, result := result })

/-- What `blobRead` leaves behind: the destination array and the return value. -/
structure Transferred where
  array : jbyteArray
  result : jint
  deriving DecidableEq, Repr

/-- Stores `data` into `buf` from index `pos` on, as the library does through the
pointer `buf + pos`. -/
def storeBytes (buf : Option (List jbyte)) (pos : jint) (data : List jbyte) :
    Except Fault (List jbyte) :=
  match buf with
  | none => throw Fault.nullDereference
  | some buf =>
    if 0 ≤ pos ∧ pos.toNat + data.length ≤ buf.length then
      pure (buf.take pos.toNat ++ data ++ buf.drop (pos.toNat + data.length))
    else
      throw Fault.outOfBounds

def blobRead (E : Sqlite3 σ) (w : World σ) (jBlob : jlong) (jOffset : jint)
    (jDestination : jbyteArray) (jDestinationOffset : jint) (jLength : jint) :
    Except Fault (World σ × Transferred) := do
  let (w, source) := GetByteArrayElements w jDestination
  let (s, result, stored) := E.sqlite3_blob_read w.engine jBlob jLength jOffset
  let w := w.invoke (Call.sqlite3_blob_read jBlob jLength jOffset) s
  let source ← match stored with
    | none => pure source
    | some data => (storeBytes source jDestinationOffset data).map some
  let w := ReleaseByteArrayElements w jDestination ReleaseMode.copyBack
  pure (w, { array := source.getD jDestination, result := result })

def blobReopen (E : Sqlite3 σ) (w : World σ) (jblob : jlong) (jrow : jlong) : World σ × jint :=
  let (s, result) := E.sqlite3_blob_reopen w.engine jblob jrow
  (w.invoke (Call.sqlite3_blob_reopen jblob jrow) s, result)

/-- The bytes readable through `source + offset`. -/
def advance (source : Option (List jbyte)) (offset : jint) : Option (List jbyte) :=
  match source with
  | none => none
  | some bytes => if 0 ≤ offset ∧ offset.toNat ≤ bytes.length then some (bytes.drop offset.toNat)
      else none

def blobWrite (E : Sqlite3 σ) (w : World σ) (jBlob : jlong) (jOffset : jint)
    (jSource : jbyteArray) (jSourceOffset : jint) (jLength : jint) : World σ × jint :=
  let (w, source) := GetByteArrayElements w jSource
  let z := advance source jSourceOffset
  let (s, result) := E.sqlite3_blob_write w.engine jBlob z jLength jOffset
  let w := w.invoke (Call.sqlite3_blob_write jBlob z jLength jOffset) s
  (ReleaseByteArrayElements w jSource ReleaseMode.JNI_ABORT, result)

def clearBindings (E : Sqlite3 σ) (w : World σ) (jstatement : jlong) : World σ × jint :=
  let (s, result) := E.sqlite3_clear_bindings w.engine jstatement
  (w.invoke (Call.sqlite3_clear_bindings jstatement) s, result)

def closeV2 (E : Sqlite3 σ) (w : World σ) (jdb : jlong) : World σ × jint :=
  let (s, result) := E.sqlite3_close_v2 w.engine jdb
  (w.invoke (Call.sqlite3_close_v2 jdb) s, result)

def columnBlob (E : Sqlite3 σ) (w : World σ) (jstatement : jlong) (index : jint) :
    Except Fault (World σ × Option jbyteArray) :=
  let (s, result) := E.sqlite3_column_blob w.engine jstatement index
  let w := w.invoke (Call.sqlite3_column_blob jstatement index) s
  match result with
  | some p =>
    let (s, size) := E.sqlite3_column_bytes w.engine jstatement index
    let w := w.invoke (Call.sqlite3_column_bytes jstatement index) s
    if size > 0 then newByteArray w p size else pure (w, none)
  | none => pure (w, none)

def columnDouble (E : Sqlite3 σ) (w : World σ) (jstatement : jlong) (index : jint) :
    World σ × jdouble :=
  let (s, result) := E.sqlite3_column_double w.engine jstatement index
  (w.invoke (Call.sqlite3_column_double jstatement index) s, result)

def columnInt (E : Sqlite3 σ) (w : World σ) (jstatement : jlong) (index : jint) :
    World σ × jint :=
  let (s, result) := E.sqlite3_column_int w.engine jstatement index
  (w.invoke (Call.sqlite3_column_int jstatement index) s, result)

def columnInt64 (E : Sqlite3 σ) (w : World σ) (jstatement : jlong) (index : jint) :
    World σ × jlong :=
  let (s, result) := E.sqlite3_column_int64 w.engine jstatement index
  (w.invoke (Call.sqlite3_column_int64 jstatement index) s, result)

def columnText (E : Sqlite3 σ) (w : World σ) (jstatement : jlong) (index : jint) :
    World σ × Option jstring :=
  let (s, text) := E.sqlite3_column_text w.engine jstatement index
  NewStringUTF (w.invoke (Call.sqlite3_column_text jstatement index) s) text

/-- What `databaseStatus` leaves behind: the bytes of the `jintArray` holder, the return
value, and its locals `current` and `highWater` at the moment it returns. -/
structure DatabaseStatus where
  holder : jarray
  result : jint
  current : jint
  highWater : jint
  deriving DecidableEq, Repr

/-- The exported `databaseStatus`.  The library stores the two counters in the locals
`current` and `highWater`; what the function then hands to `updateHolder` is `&current`
and `&highWater`, the addresses of the locals, here `pCurrent` and `pHighWater`. -/
def databaseStatus (E : Sqlite3 σ) (w : World σ) (jdatabase : jlong) (op : jint)
    (reset : jboolean) (holder : jarray) (pCurrent pHighWater : jlong) :
    Except Fault (World σ × DatabaseStatus) := do
  let current : jint := 0
  let highWater : jint := 0
  let (s, result, cur, hw) := E.sqlite3_db_status w.engine jdatabase op reset
  let w := w.invoke (Call.sqlite3_db_status jdatabase op reset) s
  let current := cur.getD current
  let highWater := hw.getD highWater
  let (w, holder) ← updateHolder w holder 0 pCurrent
  let (w, holder) ← updateHolder w holder 1 pHighWater
  pure (w, { holder := holder, result := result, current := current, highWater := highWater })

def exec (E : Sqlite3 σ) (w : World σ) (jdb : jlong) (jquery : jstring) : World σ × jint :=
  let (w, query) := GetStringUTFChars w jquery
  let (s, result) := E.sqlite3_exec w.engine jdb query
  (w.invoke (Call.sqlite3_exec jdb query) s, result)

def finalize (E : Sqlite3 σ) (w : World σ) (jstatement : jlong) : World σ × jint :=
  let (s, result) := E.sqlite3_finalize w.engine jstatement
  (w.invoke (Call.sqlite3_finalize jstatement) s, result)

def key (E : Sqlite3 σ) (w : World σ) (jdb : jlong) (jkey : jbyteArray) (length : jint) :
    World σ × jint :=
  let (w, key) := AutoJByteArray.new w jkey length
  let (s, result) := E.sqlite3_key w.engine jdb key.ptr key.length
  let w := w.invoke (Call.sqlite3_key jdb key.ptr key.length) s
  (key.delete w, result)

def keyConventionally (E : Sqlite3 σ) (w : World σ) (jdb : jlong) (jkey : jbyteArray)
    (length : jint) : Except Fault (World σ × RawKeyResult) :=
  rawKey E w jdb jkey length

def openV2 (E : Sqlite3 σ) (w : World σ) (jfilename : jstring) (jflags : jint)
    (dbHolder : jarray) : Except Fault (World σ × Held) := do
  let db : jlong := 0
  let (w, filename) := GetStringUTFChars w jfilename
  let (s, result, out) := E.sqlite3_open_v2 w.engine filename jflags
  let w := w.invoke (Call.sqlite3_open_v2 filename jflags) s
  let db := out.getD db
  let (w, dbHolder) ← updateHolder w dbHolder 0 db
  pure (w, { holder := dbHolder, result := result })

def prepareV2 (E : Sqlite3 σ) (w : World σ) (jdb : jlong) (jsql : jstring) (jlength : jint)
    (statementHolder : jarray) : Except Fault (World σ × Held) := do
  let statement : jlong := 0
  let (w, sql) := GetStringUTFChars w jsql
  let (s, result, out) := E.sqlite3_prepare_v2 w.engine jdb sql jlength
  let w := w.invoke (Call.sqlite3_prepare_v2 jdb sql jlength) s
  let statement := out.getD statement
  let (w, statementHolder) ← updateHolder w statementHolder 0 statement
  pure (w, { holder := statementHolder, result := result })

/-- The exported `Java_com_bloomberg_selekt_ExternalSQLite_rawKey`. -/
def ExternalSQLite_rawKey (E : Sqlite3 σ) (w : World σ) (jdb : jlong) (jkey : jbyteArray)
    (keyLength : jint) : Except Fault (World σ × RawKeyResult) :=
  rawKey E w jdb jkey keyLength

def rekey (E : Sqlite3 σ) (w : World σ) (jdb : jlong) (jkey : jbyteArray) (length : jint) :
    World σ × jint :=
  let (w, key) := AutoJByteArray.new w jkey length
  if key.length = 0 then
    let (s, result) := E.sqlite3_rekey w.engine jdb none key.length
    let w := w.invoke (Call.sqlite3_rekey jdb none key.length) s
    (key.delete w, result)
  else
    let (s, result) := E.sqlite3_rekey w.engine jdb key.ptr key.length
    let w := w.invoke (Call.sqlite3_rekey jdb key.ptr key.length) s
    (key.delete w, result)

def reset (E : Sqlite3 σ) (w : World σ) (jstatement : jlong) : World σ × jint :=
  let (s, result) := E.sqlite3_reset w.engine jstatement
  (w.invoke (Call.sqlite3_reset jstatement) s, result)

def resetAndClearBindings (E : Sqlite3 σ) (w : World σ) (jstatement : jlong) :
    World σ × jint :=
  let (s, result) := E.sqlite3_reset w.engine jstatement
  let w := w.invoke (Call.sqlite3_reset jstatement) s
  if E.SQLITE_OK ≠ result then
    (w, result)
  else
    let (s, result) := E.sqlite3_clear_bindings w.engine jstatement
    (w.invoke (Call.sqlite3_clear_bindings jstatement) s, result)

def step (E : Sqlite3 σ) (w : World σ) (jstatement : jlong) : World σ × jint :=
  let (s, result) := E.sqlite3_step w.engine jstatement
  (w.invoke (Call.sqlite3_step jstatement) s, result)

/-- The callback that `traceV2` installs, called with the event `trace`.  The `switch`
enters at the label equal to `trace`; no `case` ends in `break`, so every statement from
that label down to `default: break` runs.  The callback returns 0. -/
def traceV2_callback (E : Sqlite3 σ) (SELEKT_LOG : Bool) (w : World σ) (trace : Nat) :
    World σ × jint :=
  let body := [(E.SQLITE_TRACE_ROW, "ROW: %p"), (E.SQLITE_TRACE_PROFILE, "PROFILE: %p %lldns"),
    (E.SQLITE_TRACE_STMT, "STMT: %p %s"), (E.SQLITE_TRACE_CLOSE, "CLOSE: %p")]
  let entered := body.dropWhile fun c => c.1 != trace
  (entered.foldl (fun w c => LOG_D SELEKT_LOG w c.2) w, 0)

/-- Registers `traceV2_callback` for the events of `static_cast<unsigned int>(flag)`. -/
def traceV2 (E : Sqlite3 σ) (w : World σ) (jdb : jlong) (flag : jint) : World σ :=
  let mask := (flag % 2 ^ 32).toNat
  let (s, _) := E.sqlite3_trace_v2 w.engine jdb mask
  w.invoke (Call.sqlite3_trace_v2 jdb mask) s

/-- The parameter `jname` may be the Java `null` (`IsSameObject(jname, nullptr)`). -/
def walCheckpointV2 (E : Sqlite3 σ) (w : World σ) (jdb : jlong) (jname : Option jstring)
    (mode : jint) : World σ × jint :=
  match jname with
  | none =>
    let (s, result) := E.sqlite3_wal_checkpoint_v2 w.engine jdb none mode
    (w.invoke (Call.sqlite3_wal_checkpoint_v2 jdb none mode) s, result)
  | some jname =>
    let (w, name) := GetStringUTFChars w jname
    let (s, result) := E.sqlite3_wal_checkpoint_v2 w.engine jdb name mode
    (w.invoke (Call.sqlite3_wal_checkpoint_v2 jdb name mode) s, result)

/-! ## `Selektric/native_mocks.cpp` -/

/-- `strcmp(a, b)`: 0 exactly when the two strings are equal, otherwise negative or
positive by their order. -/
def strcmp (a b : String) : Int :=
  if a = b then 0 else if a.toList < b.toList then -1 else 1

/-- The mock `SystemProperties_get`, registered as `native_get`.  An `int` used as a
condition is true when it is not 0. -/
def SystemProperties_get (w : World σ) (keyJ defJ : jstring) :
    Except Fault (World σ × Option jstring) := do
  let (w, key) := GetStringUTFChars w keyJ
  match key with
  | none => throw Fault.nullDereference
  | some key =>
    if strcmp "ro.product.cpu.abilist" key ≠ 0 then
      pure (NewStringUTF w (some "arm64-v8a,armeabi-v7a"))
    else if strcmp "ro.product.cpu.abilist32" key ≠ 0 then
      pure (NewStringUTF w (some "armeabi-v7a"))
    else if strcmp "ro.product.cpu.abilist64" key ≠ 0 then
      pure (NewStringUTF w (some "arm64-v8a"))
    else
      pure (w, some defJ)

/-! ## Vocabulary of the theorems -/

/-- The two characters `snprintf(_, 3, "%02x", b)` stores before the terminator. -/
def hexPair (b : jbyte) : List Char := (format02x (promote b)).take 2

/-- The two lowercase hexadecimal digits of a value below 256. -/
def hexByte (u : Nat) : List Char := [Nat.digitChar (u / 16), Nat.digitChar (u % 16)]

/-- The statement `rawKey` hands to `sqlite3_exec` when the key bytes are `bytes`. -/
def pragmaKey (bytes : List jbyte) : String :=
  String.mk ("PRAGMA key=\"x'".toList ++ (bytes.take 32).flatMap hexPair ++ "'\"".toList)

/-- The wrapper run `out`, started in `w`, made the single library call `c`, left the
library in the state of `reply`, and returned the code of `reply`. -/
def PassesThrough (w : World σ) (out : World σ × jint) (c : Call) (reply : σ × jint) : Prop :=
  out.2 = reply.2 ∧ out.1.engine = reply.1 ∧
    World.calls out.1.trace = World.calls w.trace ++ [c]

/-- The scripted outcome of the `k`-th upcoming JNI call that may yield `NULL`. -/
def World.succeeds (w : World σ) (k : Nat) : Bool :=
  (w.script.get? k).getD true

/-- Whether `h` is a value of the 64-bit type `jlong`. -/
def IsJLong (h : Int) : Prop := -2 ^ 63 ≤ h ∧ h < 2 ^ 63

/-! ## A small library instance for concrete runs -/

/-- State of the stand-in library: the next handle it hands out, the statements that
are prepared and not finalized, the parameter bindings, and whether a closed connection
lingers as a zombie. -/
structure Toy where
  fresh : jlong := 1
  statements : List jlong := []
  bindings : List (jint × jlong) := []
  zombie : Bool := false
  deriving DecidableEq, Repr

/-- A stand-in for the library.  `sqlite3_close_v2` behaves as SQLite documents it: with
unfinalized statements it returns `SQLITE_OK` and leaves the connection a zombie.  Every
column holds the three-byte blob `01 02 03`, every byte of every open blob is 9, and
`sqlite3_step` always reports `SQLITE_BUSY`. -/
def toy : Sqlite3 Toy where
  sqlite3_open_v2 := fun s _ _ => ({ s with fresh := s.fresh + 1 }, 0, some s.fresh)
  sqlite3_prepare_v2 := fun s _ _ _ =>
    ({ s with fresh := s.fresh + 1, statements := s.fresh :: s.statements }, 0, some s.fresh)
  sqlite3_finalize := fun s st => ({ s with statements := s.statements.erase st }, 0)
  sqlite3_bind_int64 := fun s _ i v => ({ s with bindings := (i, v) :: s.bindings }, 0)
  sqlite3_clear_bindings := fun s _ => ({ s with bindings := [] }, 0)
  sqlite3_close_v2 := fun s _ => ({ s with zombie := !s.statements.isEmpty }, 0)
  sqlite3_column_blob := fun s _ _ => (s, some [1, 2, 3])
  sqlite3_column_bytes := fun s _ _ => (s, 3)
  sqlite3_step := fun s _ => (s, 5)
  sqlite3_blob_read := fun s _ n _ => (s, 0, some (List.replicate n.toNat 9))

/-- The world before any call, over the stand-in library. -/
def toyWorld : World Toy := { engine := {} }

/-- The stand-in library with a write-ahead log of 3 frames, all of which a checkpoint
moves: that is what `sqlite3_wal_checkpoint_v2` would store through `pnLog` and
`pnCkpt`. -/
def checkpointing : Sqlite3 Toy := { toy with wal_checkpoint_counts := fun _ _ _ _ => (3, 3) }

/-- The bound value of parameter `i` in the stand-in library. -/
def Toy.bound (s : Toy) (_stmt : jlong) (i : jint) : Option jlong :=
  (s.bindings.find? fun b => b.1 == i).map Prod.snd

/-- The 32-byte key `80 00 00 ... 00`. -/
def highKey : jbyteArray := -128 :: List.replicate 31 0

/-- The 32-byte key `ff 00 00 ... 00`. -/
def topKey : jbyteArray := -1 :: List.replicate 31 0

/-- The stand-in library reporting a current value of 5 and a high-water value of 9. -/
def reporting : Sqlite3 Toy :=
  { toy with sqlite3_db_status := fun s _ _ _ => (s, 0, some 5, some 9) }

/-- The world before any call on a platform whose `size_t` has 4 bytes. -/
def toyWorld32 : World Toy := { engine := {}, sizeofSizeT := 4 }

/-- The world before any call in which the first JNI call that may yield `NULL` does. -/
def toyWorldNull : World Toy := { engine := {}, script := [false] }

/-- The behaviour the claim gives for `resetAndClearBindings`, in its words: `reset`
followed by `clearBindings`, with a short circuit when `reset` does not return
`SQLITE_OK`. -/
def resetThenClearBindings (E : Sqlite3 σ) (w : World σ) (jstatement : jlong) :
    World σ × jint :=
  let afterReset := reset E w jstatement
  if afterReset.2 ≠ E.SQLITE_OK then afterReset
  else clearBindings E afterReset.1 jstatement

/-- Opens a database, prepares a statement on it, and closes the database without
finalizing the statement. -/
def closeWithLiveStatement : Except Fault (World Toy × jint) := do
  let (w, db) ← openV2 toy toyWorld "db" 6 (List.replicate 8 0)
  let (w, _) ← prepareV2 toy w (jlongAt db.holder 0) "SELECT 1" (-1) (List.replicate 8 0)
  pure (closeV2 toy w (jlongAt db.holder 0))

/-- The library calls made by a run, when it returns. -/
def callsOf {α : Type} (run : Except Fault (World σ × α)) : Option (List Call) :=
  run.toOption.map fun r => World.calls r.1.trace

/-- What the run `out` of a function with a holder did, given whether the holder's
elements were obtained (`critical`): it returned `rc`; when they were obtained, element 0
of the holder is `handle` and every other element is as before; when they were not, the
holder is as before and the last event is the `OutOfMemoryError`. -/
def HolderSet (critical : Bool) (holder : jarray) (handle : jlong) (rc : jint)
    (out : Except Fault (World σ × Held)) : Prop :=
  ∃ w' held, out = Except.ok (w', held) ∧ held.result = rc ∧
    (critical = true →
      (IsJLong handle → jlongAt held.holder 0 = handle) ∧
      held.holder.length = holder.length ∧
      ∀ i, 1 ≤ i → jlongAt held.holder i = jlongAt holder i) ∧
    (critical = false →
      held.holder = holder ∧
      w'.trace.getLast? = some (Event.ThrowNew "java/lang/OutOfMemoryError"
        "GetPrimitiveArrayCritical"))

/-- The run `out`, started in `w`, returned; it made the single library call `c`, left
the library in the state of `reply`, and returned the code of `reply`. -/
def ReturnsThrough {α : Type} (w : World σ) (out : Except Fault (World σ × α))
    (code : α → jint) (c : Call) (reply : σ × jint) : Prop :=
  ∃ w' r, out = Except.ok (w', r) ∧ PassesThrough w (w', code r) c reply

/-! ## The engine of the spec

The sources hold the wrapper only.  Where a claim is about what the engine behind it
returns, the engine is the following model of the spec's Statement Engine (§4.4), Blob
Stream (§4.5) and checkpoint (§4.2) over a single one-column table. -/

/-- Modelled from the spec: the `Value` of §3, "tagged union {Null, Integer64, Float64,
Text, Blob}"; the engine's own value type is not in the sources. -/
inductive Value
  | null
  | integer (v : jlong)
  | float (bits : jdouble)
  | text (s : String)
  | blob (bytes : List jbyte)
  deriving DecidableEq, Repr

/-- Modelled from the spec: the states of a statement between `prepare` and `finalize`
(§4.4, "Prepared → (Bound)* → Executing → {Row, Done} → Reset"): not stepped since it was
prepared or reset, positioned on a row, or Done. -/
inductive Position
  | prepared
  | row (v : Value)
  | done
  deriving DecidableEq, Repr

/-- Modelled from the spec: the `Statement` of §3, which "owns a parameter set (by
1-based index) and holds a cursor position into result rows"; the engine's statement
object is not in the sources.  `inserts` tells an `INSERT` of parameter 1 from a `SELECT`
of the table, `cursor` counts the rows delivered since the last reset, `finalized` tells
that `finalize` has released the statement. -/
structure Statement where
  inserts : Bool
  parameters : List Value
  cursor : Nat := 0
  position : Position := Position.prepared
  finalized : Bool := false
  deriving DecidableEq, Repr

/-- Modelled from the spec: the state of the engine core, which is not in the sources:
the next handle, the statements and the open blob handles (each with the bytes of the
column value it is bound to) by handle, and the rows of the table. -/
structure Core where
  fresh : jlong := 1
  statements : jlong → Option Statement := fun _ => none
  blobs : jlong → Option (List jbyte) := fun _ => none
  table : List Value := []

namespace Core

/-- The statement behind a handle, when it is prepared and not finalized. -/
def live (s : Core) (stmt : jlong) : Option Statement :=
  match s.statements stmt with
  | some st => if st.finalized then none else some st
  | none => none

/-- Replaces the statement behind a handle. -/
def put (s : Core) (stmt : jlong) (st : Statement) : Core :=
  { s with statements := fun h => if h = stmt then some st else s.statements h }

/-- Replaces what is behind a blob handle: its bytes, or nothing once it is closed. -/
def putBlob (s : Core) (blob : jlong) (bytes : Option (List jbyte)) : Core :=
  { s with blobs := fun h => if h = blob then bytes else s.blobs h }

/-- Modelled from the spec: the compilation done by `prepare(sql)` of §4.4, not in the
sources.  SQL parsing is a non-goal of the spec: a text that begins `INSERT` compiles to
an insert of its one parameter, a text that begins `SELECT` to a scan of the table, and
no other text compiles. -/
def compile (text : String) : Option Statement :=
  if text.toList.take 6 = "INSERT".toList then
    some { inserts := true, parameters := [Value.null] }
  else if text.toList.take 6 = "SELECT".toList then
    some { inserts := false, parameters := [] }
  else none

/-- Modelled from the spec: `prepare(sql) -> Statement` of §4.4, not in the sources: a
new handle for the compiled statement, or a failure (SyntaxError, here `SQLITE_ERROR`)
for a text that does not compile. -/
def prepare (s : Core) (sql : Option String) : Core × jint × Option jlong :=
  match sql.bind compile with
  | some st => ({ s.put s.fresh st with fresh := s.fresh + 1 }, 0, some s.fresh)
  | none => (s, 1, none)

/-- Modelled from the spec: `bind(index, value)` of §4.4, not in the sources: "index must
be in [1, parameterCount]; out-of-range fails with RangeError.  Rebinding before reset is
allowed and overwrites."  A handle that is not live is a ReuseError (`SQLITE_MISUSE`). -/
def bind (s : Core) (stmt : jlong) (index : jint) (value : Value) : Core × jint :=
  match s.live stmt with
  | none => (s, 21)
  | some st =>
    if index < 1 ∨ (st.parameters.length : Int) < index then (s, 25)
    else (s.put stmt { st with parameters := st.parameters.set (index.toNat - 1) value }, 0)

/-- The number of parameters of a live statement. -/
def parameterCount (s : Core) (stmt : jlong) : jint :=
  match s.live stmt with
  | none => 0
  | some st => st.parameters.length

/-- Modelled from the spec: `step() -> Row|Done` of §4.4, not in the sources: it
"advances the cursor one row" and "returns Done when exhausted"; "calling `step()` after
`Done` repeatedly returns `Done`".  An insert appends its parameter 1 to the table and is
Done.  The codes are `SQLITE_ROW` (100) and `SQLITE_DONE` (101). -/
def step (s : Core) (stmt : jlong) : Core × jint :=
  match s.live stmt with
  | none => (s, 21)
  | some st =>
    if st.position = Position.done then (s, 101)
    else if st.inserts then
      ({ s.put stmt { st with position := Position.done } with
          table := s.table ++ [st.parameters.headD Value.null] }, 101)
    else
      match s.table.get? st.cursor with
      | some v =>
        (s.put stmt { st with cursor := st.cursor + 1, position := Position.row v }, 100)
      | none => (s.put stmt { st with position := Position.done }, 101)

/-- Modelled from the spec: `reset()` of §4.4, not in the sources: it "returns to
Prepared-equivalent state, cursor cleared, bindings retained until `clearBindings()`". -/
def reset (s : Core) (stmt : jlong) : Core × jint :=
  match s.live stmt with
  | none => (s, 21)
  | some st => (s.put stmt { st with cursor := 0, position := Position.prepared }, 0)

/-- Modelled from the spec: `clearBindings()` of §4.4, not in the sources. -/
def clearBindings (s : Core) (stmt : jlong) : Core × jint :=
  match s.live stmt with
  | none => (s, 21)
  | some st => (s.put stmt { st with parameters := st.parameters.map fun _ => Value.null }, 0)

/-- Modelled from the spec: `finalize()` of §4.4, not in the sources: it "releases
compiled form; statement becomes unusable; double-finalize is a no-op-safe error
(ReuseError)". -/
def finalize (s : Core) (stmt : jlong) : Core × jint :=
  match s.live stmt with
  | none => (s, 21)
  | some st => (s.put stmt { st with finalized := true }, 0)

/-- The value a column access reads: the row a live statement is positioned on, and
`Null` when it is positioned on none ("calling when Done or before first step yields a
type-appropriate zero/empty value", §4.4). -/
def column (s : Core) (stmt : jlong) : Value :=
  match s.live stmt with
  | none => Value.null
  | some st =>
    match st.position with
    | Position.row v => v
    | _ => Value.null

end Core

namespace Value

/-- The value as a 64-bit integer; 0 for a value that is not an integer (the spec
defines no conversions). -/
def toInt64 : Value → jlong
  | integer v => v
  | _ => 0

/-- The value as a double (its bit pattern); 0.0 for a value that is not a float. -/
def toDouble : Value → jdouble
  | float bits => bits
  | _ => 0

/-- The text of the value; the null pointer for a value that is not a text. -/
def toText : Value → Option String
  | text s => some s
  | _ => none

/-- The bytes of the value; the null pointer for a value that is not a blob. -/
def toBlob : Value → Option (List jbyte)
  | blob bytes => some bytes
  | _ => none

end Value

namespace Core

/-- Whether `n` bytes at `offset` lie inside a blob of `size` bytes. -/
def inRange (size : Nat) (offset n : jint) : Bool :=
  decide (0 ≤ offset) && decide (0 ≤ n) && decide (offset + n ≤ size)

/-- Modelled from the spec: `read(offset, length) -> bytes` of §4.5, not in the sources:
it fails "with RangeError if `offset+length` exceeds the blob's current size"; using a
handle that is not open is a ReuseError. -/
def blobRead (s : Core) (blob : jlong) (n offset : jint) : Core × jint × Option (List jbyte) :=
  match s.blobs blob with
  | none => (s, 21, none)
  | some bytes =>
    if inRange bytes.length offset n then (s, 0, some ((bytes.drop offset.toNat).take n.toNat))
    else (s, 25, none)

/-- Modelled from the spec: `write(offset, bytes)` of §4.5, not in the sources, with the
same RangeError; the size of the blob is fixed. -/
def blobWrite (s : Core) (blob : jlong) (z : Option (List jbyte)) (n offset : jint) :
    Core × jint :=
  match s.blobs blob, z with
  | some bytes, some z =>
    if inRange bytes.length offset n then
      if n.toNat ≤ z.length then
        (s.putBlob blob (some
          (bytes.take offset.toNat ++ z.take n.toNat ++ bytes.drop (offset.toNat + n.toNat))), 0)
      else (s, 21)
    else (s, 25)
  | some bytes, none => if inRange bytes.length offset n then (s, 21) else (s, 25)
  | none, _ => (s, 21)

/-- Modelled from the spec: `open(table, column, rowid, writable) -> BlobHandle` of §4.5,
not in the sources: it "fails with NotFound if row/column absent" (here `SQLITE_ERROR`).
Rows are numbered from 1. -/
def blobOpen (s : Core) (row : jlong) : Core × jint × Option jlong :=
  match (s.table.get? (row.toNat - 1)).bind Value.toBlob with
  | some bytes =>
    if 1 ≤ row then
      ({ s.putBlob s.fresh (some bytes) with fresh := s.fresh + 1 }, 0, some s.fresh)
    else (s, 1, none)
  | none => (s, 1, none)

/-- Modelled from the spec: `close()` of §4.5, not in the sources: it "releases the
handle; using a handle after close is a ReuseError". -/
def blobClose (s : Core) (blob : jlong) : Core × jint :=
  match s.blobs blob with
  | none => (s, 21)
  | some _ => (s.putBlob blob none, 0)

end Core

/-- Modelled from the spec: the engine core behind the wrapper, which is not in the
sources, as a record of the entry points the wrapper calls.  `checkpoint(mode) ->
framesMoved` of §4.2 folds every frame of the log into the page store, returns
`SQLITE_OK`, and reports the number of frames moved through its out-parameters. -/
def core : Sqlite3 Core where
  sqlite3_open_v2 := fun s _ _ => ({ s with fresh := s.fresh + 1 }, 0, some s.fresh)
  sqlite3_prepare_v2 := fun s _ sql _ => s.prepare sql
  sqlite3_bind_blob := fun s stmt i v n =>
    s.bind stmt i (match v with
      | some bytes => Value.blob (bytes.take n.toNat)
      | none => Value.null)
  sqlite3_bind_double := fun s stmt i v => s.bind stmt i (Value.float v)
  sqlite3_bind_int := fun s stmt i v => s.bind stmt i (Value.integer v)
  sqlite3_bind_int64 := fun s stmt i v => s.bind stmt i (Value.integer v)
  sqlite3_bind_null := fun s stmt i => s.bind stmt i Value.null
  sqlite3_bind_text := fun s stmt i v _ =>
    s.bind stmt i (match v with
      | some text => Value.text text
      | none => Value.null)
  sqlite3_bind_zeroblob := fun s stmt i n => s.bind stmt i (Value.blob (List.replicate n.toNat 0))
  sqlite3_bind_parameter_count := fun s stmt => (s, s.parameterCount stmt)
  sqlite3_clear_bindings := Core.clearBindings
  sqlite3_finalize := Core.finalize
  sqlite3_reset := Core.reset
  sqlite3_step := Core.step
  sqlite3_column_blob := fun s stmt _ => (s, (s.column stmt).toBlob)
  sqlite3_column_bytes := fun s stmt _ => (s, (((s.column stmt).toBlob.getD []).length : Int))
  sqlite3_column_double := fun s stmt _ => (s, (s.column stmt).toDouble)
  sqlite3_column_int := fun s stmt _ => (s, (s.column stmt).toInt64)
  sqlite3_column_int64 := fun s stmt _ => (s, (s.column stmt).toInt64)
  sqlite3_column_text := fun s stmt _ => (s, (s.column stmt).toText)
  sqlite3_blob_open := fun s _ _ _ _ row _ => s.blobOpen row
  sqlite3_blob_bytes := fun s blob => (s, (((s.blobs blob).getD []).length : Int))
  sqlite3_blob_read := Core.blobRead
  sqlite3_blob_write := Core.blobWrite
  sqlite3_blob_close := Core.blobClose

/-- The world before any call, over the engine of the spec with an empty database. -/
def coreWorld : World Core := { engine := {} }

/-- Whether a statement of the engine of the spec is positioned on a row. -/
def OnRow (s : Core) (stmt : jlong) : Prop :=
  ∃ st v, s.live stmt = some st ∧ st.position = Position.row v

/-- The scenario of the spec (§8) for the integer `v`: open an empty database, prepare
an `INSERT`, bind `v` to parameter 1, step, prepare a `SELECT`, step, read column 0.
Returns the codes of the two steps and the column value. -/
def insertThenSelect (v : jlong) : Except Fault (jint × jint × jlong) := do
  let (w, db) ← openV2 core coreWorld "test.db" 6 (List.replicate 8 0)
  let (w, ins) ← prepareV2 core w (jlongAt db.holder 0) "INSERT INTO t VALUES (?)" (-1)
    (List.replicate 8 0)
  let (w, _) := bindInt64 core w (jlongAt ins.holder 0) 1 v
  let (w, inserted) := step core w (jlongAt ins.holder 0)
  let (w, sel) ← prepareV2 core w (jlongAt db.holder 0) "SELECT a FROM t" (-1)
    (List.replicate 8 0)
  let (w, selected) := step core w (jlongAt sel.holder 0)
  let (_, value) := columnInt64 core w (jlongAt sel.holder 0) 0
  pure (inserted, selected, value)

/-- A world over the engine of the spec in which handle 2 is a live `SELECT` with two
parameters, not yet stepped, over a table of two rows. -/
def statementWorld : World Core :=
  { engine :=
      { fresh := 3
        statements := fun h =>
          if h = 2 then some { inserts := false, parameters := [Value.null, Value.null] }
          else none
        table := [Value.integer 7, Value.integer 8] } }

/-- A world over the engine of the spec in which handle 5 is an open blob of four
bytes. -/
def blobWorld : World Core :=
  { engine := { fresh := 6, blobs := fun h => if h = 5 then some [1, 2, 3, 4] else none } }

/-! ## Lemmas on the buffer of `rawKey` -/

theorem store_append (A B data : List Char) :
    store (A ++ B) A.length data = A ++ data ++ B.drop data.length := by
  simp [store, List.drop_append]

theorem format02x_length (u : Nat) : 2 ≤ (format02x u).length := by
  simp only [format02x, List.length_append, List.length_replicate]
  omega

theorem hexPair_length (b : jbyte) : (hexPair b).length = 2 := by
  have := format02x_length (promote b)
  simp only [hexPair, List.length_take]
  omega

theorem flatMap_hexPair_length (bs : List jbyte) :
    (bs.flatMap hexPair).length = 2 * bs.length := by
  induction bs with
  | nil => rfl
  | cons b bs ih =>
    simp only [List.flatMap_cons, List.length_append, hexPair_length, ih, List.length_cons]
    omega

theorem snprintf02x_append (A t : List Char) (c : Char) (b : jbyte) (pos : Nat)
    (hpos : pos = A.length) :
    snprintf02x (A ++ c :: t) pos 3 b = A ++ hexPair b ++ NUL :: t.drop 2 := by
  subst hpos
  have h3 : (hexPair b ++ [NUL]).length = 3 := by simp [hexPair_length]
  have := store_append A (c :: t) (hexPair b ++ [NUL])
  simp only [snprintf02x, hexPair] at *
  simp only [OfNat.ofNat_ne_zero, ↓reduceIte, Nat.add_one_sub_one]
  rw [this, h3]
  simp

theorem index_some (j bytes : List jbyte) (len : jsize) (n : Nat) (hlt : n < bytes.length) :
    AutoJByteArray.index { mJArray := j, mpBytes := some bytes, mLength := len } n
      = Except.ok bytes[n] := by
  simp [AutoJByteArray.index, AutoJByteArray.ptr, List.getElem?_eq_getElem hlt]

theorem rawKeyLoop_eq (j bytes : List jbyte) (len : jsize) (pre tail : List Char) (n : Nat)
    (hn : n ≤ bytes.length) (ht : 2 * n ≤ tail.length) :
    rawKeyLoop { mJArray := j, mpBytes := some bytes, mLength := len } n pre.length
        (pre ++ NUL :: tail)
      = Except.ok (pre ++ (bytes.take n).flatMap hexPair ++ NUL :: tail.drop (2 * n)) := by
  induction n with
  | zero => simp [rawKeyLoop]; rfl
  | succ n ih =>
    have ih := ih (by omega) (by omega)
    simp only [rawKeyLoop] at ih ⊢
    rw [List.range_succ, List.foldlM_append, ih]
    have hlt : n < bytes.length := by omega
    have hstep := snprintf02x_append (pre ++ (bytes.take n).flatMap hexPair)
      (tail.drop (2 * n)) NUL bytes[n] (pre.length + 2 * n)
      (by rw [List.length_append, flatMap_hexPair_length, List.length_take]; omega)
    have htake : (bytes.take (n + 1)).flatMap hexPair
        = (bytes.take n).flatMap hexPair ++ hexPair bytes[n] := by
      rw [List.take_succ, List.flatMap_append, List.getElem?_eq_getElem hlt]
      simp
    have hdrop : (tail.drop (2 * n)).drop 2 = tail.drop (2 * (n + 1)) := by
      rw [List.drop_drop]
      rfl
    simp only [List.foldlM_cons, List.foldlM_nil, index_some j bytes len n hlt]
    show Except.ok (snprintf02x _ _ 3 _) = _
    rw [hstep, htake, hdrop]
    simp


theorem digitChar_ne_NUL : ∀ d < 16, Nat.digitChar d ≠ NUL := by
  decide

theorem toDigitsCore_ne_NUL (fuel n : Nat) (ds : List Char)
    (h : ∀ c ∈ ds, c ≠ NUL) : ∀ c ∈ Nat.toDigitsCore 16 fuel n ds, c ≠ NUL := by
  induction fuel generalizing n ds with
  | zero => simpa [Nat.toDigitsCore] using h
  | succ fuel ih =>
    have hd : ∀ c ∈ Nat.digitChar (n % 16) :: ds, c ≠ NUL := by
      intro c hc
      rcases List.mem_cons.mp hc with rfl | hc
      · exact digitChar_ne_NUL _ (Nat.mod_lt n (by decide))
      · exact h c hc
    unfold Nat.toDigitsCore
    by_cases h0 : n / 16 = 0
    · simpa [h0] using hd
    · simp only [h0, ↓reduceIte]
      exact ih _ _ hd

theorem hexPair_ne_NUL (b : jbyte) : ∀ c ∈ hexPair b, c ≠ NUL := by
  intro c hc
  have hc := List.mem_of_mem_take hc
  simp only [format02x, List.mem_append, List.mem_replicate] at hc
  rcases hc with ⟨_, rfl⟩ | hc
  · decide
  · exact toDigitsCore_ne_NUL _ _ [] (by simp) c hc


theorem rawKeyLoop_buffer (j bytes : List jbyte) (len : jsize) (buf : List Char)
    (hbuf : buf.length = 81) (hbytes : 32 ≤ bytes.length) :
    rawKeyLoop { mJArray := j, mpBytes := some bytes, mLength := len } 32 14
        (strcpy buf 0 "PRAGMA key=\"x'")
      = Except.ok ("PRAGMA key=\"x'".toList ++ (bytes.take 32).flatMap hexPair
          ++ NUL :: buf.drop 79) := by
  have h := rawKeyLoop_eq j bytes len "PRAGMA key=\"x'".toList (buf.drop 15) 32 hbytes
    (by rw [List.length_drop]; omega)
  have hs : strcpy buf 0 "PRAGMA key=\"x'" = "PRAGMA key=\"x'".toList ++ NUL :: buf.drop 15 := by
    simp [strcpy, store]
  rw [hs]
  rw [List.drop_drop] at h
  exact h

theorem strcpy_suffix (hex buf : List Char) (hhex : hex.length = 64) (hbuf : buf.length = 81) :
    strcpy ("PRAGMA key=\"x'".toList ++ hex ++ NUL :: buf.drop 79) 78 "'\""
      = "PRAGMA key=\"x'".toList ++ hex ++ "'\"".toList ++ [NUL] := by
  have h := store_append ("PRAGMA key=\"x'".toList ++ hex) (NUL :: buf.drop 79)
    ("'\"".toList ++ [NUL])
  have hl : ("PRAGMA key=\"x'".toList ++ hex).length = 78 := by
    rw [List.length_append, hhex]; rfl
  rw [hl] at h
  have hd : (NUL :: buf.drop 79).drop ("'\"".toList ++ [NUL]).length = [] := by
    show (NUL :: buf.drop 79).drop 3 = []
    simp [List.drop_drop]; omega
  rw [strcpy, h, hd]
  simp

theorem cstring_statement (bytes : List jbyte) :
    cstring ("PRAGMA key=\"x'".toList ++ (bytes.take 32).flatMap hexPair ++ "'\"".toList ++ [NUL])
      = pragmaKey bytes := by
  have hne : ∀ c ∈ "PRAGMA key=\"x'".toList ++ (bytes.take 32).flatMap hexPair ++ "'\"".toList,
      (c != NUL) = true := by
    have hp : ∀ c ∈ "PRAGMA key=\"x'".toList, c ≠ NUL := by decide
    have hq : ∀ c ∈ "'\"".toList, c ≠ NUL := by decide
    intro c hc
    simp only [bne_iff_ne, ne_eq]
    rcases List.mem_append.mp hc with hc | hc
    · rcases List.mem_append.mp hc with hc | hc
      · exact hp c hc
      · obtain ⟨b, _, hb⟩ := List.mem_flatMap.mp hc
        exact hexPair_ne_NUL b c hb
    · exact hq c hc
  simp only [cstring, pragmaKey]
  rw [List.takeWhile_append_of_pos hne]
  simp [List.takeWhile]


theorem fill_all (buf : List Char) (n : Nat) (h : buf.length = n) :
    fill buf n = List.replicate n NUL := by
  simp [fill, ← h]

theorem next_engine (w : World σ) : w.next.2.engine = w.engine := by
  unfold World.next; split <;> rfl

theorem next_trace (w : World σ) : w.next.2.trace = w.trace := by
  unfold World.next; split <;> rfl

theorem next_indeterminate (w : World σ) : w.next.2.indeterminate = w.indeterminate := by
  unfold World.next; split <;> rfl

theorem next_sizeofSizeT (w : World σ) : w.next.2.sizeofSizeT = w.sizeofSizeT := by
  unfold World.next; split <;> rfl

theorem rawKey_ok (E : Sqlite3 σ) (w : World σ) (jdb : jlong) (jkey : jbyteArray)
    (hok : w.next.1 = true) (hlen : 32 ≤ jkey.length) :
    rawKey E w jdb jkey 32 = Except.ok
      ({ w.next.2 with
          engine := (E.sqlite3_exec w.engine jdb (some (pragmaKey jkey))).1
          trace := w.trace ++ [Event.GetByteArrayElements jkey,
            Event.call (Call.sqlite3_exec jdb (some (pragmaKey jkey))),
            Event.ReleaseByteArrayElements jkey ReleaseMode.JNI_ABORT] },
       { result := (E.sqlite3_exec w.engine jdb (some (pragmaKey jkey))).2,
         sql := List.replicate 81 NUL }) := by
  have h14 : "PRAGMA key=\"x'".length = 14 := rfl
  have h2 : "'\"".length = 2 := rfl
  have h64 : (2 * (32 : Int)).toNat = 64 := rfl
  have h32 : (32 : Int).toNat = 32 := rfl
  have hloop := fun buf hbuf => rawKeyLoop_buffer jkey jkey 32 buf hbuf hlen
  have hsuf := fun buf hbuf => strcpy_suffix ((jkey.take 32).flatMap hexPair) buf
    (by rw [flatMap_hexPair_length, List.length_take]; omega) hbuf
  have hcs := cstring_statement jkey
  have hfill := fill_all ("PRAGMA key=\"x'".toList ++ (List.take 32 jkey).flatMap hexPair
    ++ "'\"".toList ++ [NUL]) 81
    (by simp only [List.length_append, flatMap_hexPair_length, List.length_take,
          List.length_singleton]
        rw [Nat.min_eq_left hlen]; rfl)
  simp only [rawKey, AutoJByteArray.new, GetByteArrayElements, h14, h2, h64, h32, hok,
    ne_eq, not_true_eq_false, ↓reduceIte, Option.isNone_some, Bool.false_eq_true]
  generalize hbuf : ((List.range (14 + 64 + 2 + 1)).map fun i =>
    Char.ofNat ((w.next.2.emit (Event.GetByteArrayElements jkey)).indeterminate i).toNat).set
      (14 + 64 + 2) NUL = buf
  have hbl : buf.length = 81 := by rw [← hbuf]; simp
  rw [hloop buf hbl]
  show Except.ok _ = _
  have e78 : 14 + 64 + 2 - 2 = 78 := rfl
  have e81 : 14 + 64 + 2 + 1 = 81 := rfl
  simp only [e78, e81, hsuf buf hbl, hcs, hfill, AutoJByteArray.delete,
    ReleaseByteArrayElements, World.invoke, World.emit, next_engine, next_trace]
  simp only [List.append_assoc, List.singleton_append, List.cons_append, List.nil_append]



/-! ## Traces -/

theorem calls_append (t u : List Event) :
    World.calls (t ++ u) = World.calls t ++ World.calls u := by
  simp [World.calls]

theorem rawKey_null (E : Sqlite3 σ) (w : World σ) (jdb : jlong) (jkey : jbyteArray)
    (hnull : w.next.1 = false) :
    rawKey E w jdb jkey 32 = Except.error Fault.nullDereference := by
  have hr : List.range 32 = 0 :: (List.range 31).map (· + 1) := by decide
  have h32 : (32 : Int).toNat = 32 := rfl
  simp only [rawKey, AutoJByteArray.new, GetByteArrayElements, hnull, rawKeyLoop, h32, hr,
    List.foldlM_cons, AutoJByteArray.index, AutoJByteArray.ptr, ne_eq, not_true_eq_false,
    ↓reduceIte, Bool.false_eq_true]
  rfl

set_option maxRecDepth 100000 in
theorem hexPair_ofNat : ∀ n < 128, hexPair (Int.ofNat n) = hexByte n := by
  decide

set_option maxRecDepth 100000 in
theorem hexPair_negSucc : ∀ n < 128, hexPair (Int.negSucc n) = ['f', 'f'] := by
  decide

/-- A byte from 0 to 127 is written as its two hexadecimal digits. -/
theorem hexPair_nonneg (b : Int) (h0 : 0 ≤ b) (h1 : b < 128) : hexPair b = hexByte b.toNat := by
  obtain ⟨n, rfl⟩ := Int.eq_ofNat_of_zero_le h0
  exact hexPair_ofNat n (by omega)

/-- A byte from -128 to -1 is written as `ff`, whatever its value. -/
theorem hexPair_neg (b : Int) (h0 : -128 ≤ b) (h1 : b < 0) : hexPair b = ['f', 'f'] := by
  obtain ⟨n, rfl⟩ := Int.eq_negSucc_of_lt_zero h1
  rw [Int.negSucc_eq] at h0
  exact hexPair_negSucc n (by omega)

/-- The statement text for any key of at least 32 bytes whose elements are obtained. -/
theorem rawKey_statement (E : Sqlite3 σ) (w : World σ) (jdb : jlong) (jkey : jbyteArray)
    (hok : w.next.1 = true) (hlen : 32 ≤ jkey.length) :
    callsOf (rawKey E w jdb jkey 32)
      = some (World.calls w.trace ++ [Call.sqlite3_exec jdb (some (pragmaKey jkey))]) := by
  rw [rawKey_ok E w jdb jkey hok hlen]
  simp only [callsOf, Except.toOption, Option.map_some', calls_append]
  rfl

/-! ## Claims -/

/-- C1: a call of `rawKey` (through either export, `rawKey` or `keyConventionally`) whose
length argument is not 32 returns `SQLITE_ERROR`, raises `IllegalArgumentException`
with the message "Key must be 32 bytes in size.", and does nothing else: the trace
gains that one event, so `sqlite3_exec` is not called and the key's elements are never
obtained, and the library state is untouched. -/
theorem rawKey_rejects_other_lengths (E : Sqlite3 σ) (w : World σ) (jdb : jlong)
    (jkey : jbyteArray) (keyLength : jint) (h : keyLength ≠ 32) :
    ExternalSQLite_rawKey E w jdb jkey keyLength
        = Except.ok ({ w with trace := w.trace ++ [Event.ThrowNew
            "java/lang/IllegalArgumentException" "Key must be 32 bytes in size."] },
          { result := E.SQLITE_ERROR, sql := [] })
      ∧ keyConventionally E w jdb jkey keyLength
        = Except.ok ({ w with trace := w.trace ++ [Event.ThrowNew
            "java/lang/IllegalArgumentException" "Key must be 32 bytes in size."] },
          { result := E.SQLITE_ERROR, sql := [] }) := by
  simp only [ExternalSQLite_rawKey, keyConventionally, rawKey, h, ne_eq, not_false_eq_true,
    ↓reduceIte, throwIllegalArgumentException, ThrowNew, World.emit]
  exact ⟨rfl, rfl⟩

/-- Witness of C1: a 16-byte key. -/
theorem rawKey_rejects_other_lengths_witness :
    (16 : jint) ≠ 32 ∧
      callsOf (ExternalSQLite_rawKey toy toyWorld 7 (List.replicate 16 1) 16) = some [] ∧
      (ExternalSQLite_rawKey toy toyWorld 7 (List.replicate 16 1) 16).toOption.map
          (fun r => (r.1.trace, r.2.result))
        = some ([Event.ThrowNew "java/lang/IllegalArgumentException"
            "Key must be 32 bytes in size."], 1) :=
  ⟨by decide,
   by rw [(rawKey_rejects_other_lengths toy toyWorld 7 (List.replicate 16 1) 16 (by decide)).1]
      rfl,
   by rw [(rawKey_rejects_other_lengths toy toyWorld 7 (List.replicate 16 1) 16 (by decide)).1]
      rfl⟩

set_option maxRecDepth 100000 in
/-- C2 at the key `80 00 ... 00`: the statement `rawKey` passes to `sqlite3_exec` begins
`PRAGMA key="x'ff`, not `PRAGMA key="x'80`: the byte -128 is promoted to the `int`
-128, `%02x` formats `ffffff80`, and the size 3 keeps its first two characters. -/
theorem rawKey_sign_extends_high_byte :
    callsOf (rawKey toy toyWorld 7 highKey 32) = some [Call.sqlite3_exec 7 (some
      "PRAGMA key=\"x'ff00000000000000000000000000000000000000000000000000000000000000'\"")]
      ∧ hexByte 128 = ['8', '0'] := by
  decide

/-- C3, refuted: `key` and `rekey` called with a 3-byte key (length 3, not 32) are not
rejected; `sqlite3_key` and `sqlite3_rekey` are called with that key. -/
theorem key_passes_any_length :
    (3 : jint) ≠ 32
      ∧ World.calls (key toy toyWorld 7 [1, 2, 3] 3).1.trace
        = [Call.sqlite3_key 7 (some [1, 2, 3]) 3]
      ∧ World.calls (rekey toy toyWorld 7 [1, 2, 3] 3).1.trace
        = [Call.sqlite3_rekey 7 (some [1, 2, 3]) 3] := by
  decide

/-- C3, amended: `key` and `rekey` make no check of the length.  Whatever the length,
`key` calls `sqlite3_key` exactly once with the obtained elements and the caller's
length, and `rekey` calls `sqlite3_rekey` exactly once with the caller's length (and a
null key when the length is 0); each returns the library's result code. -/
theorem key_and_rekey_always_invoke (E : Sqlite3 σ) (w : World σ) (jdb : jlong)
    (jkey : jbyteArray) (length : jint) :
    PassesThrough w (key E w jdb jkey length)
        (Call.sqlite3_key jdb (GetByteArrayElements w jkey).2 length)
        (E.sqlite3_key w.engine jdb (GetByteArrayElements w jkey).2 length)
      ∧ PassesThrough w (rekey E w jdb jkey length)
        (Call.sqlite3_rekey jdb
          (if length = 0 then none else (GetByteArrayElements w jkey).2) length)
        (E.sqlite3_rekey w.engine jdb
          (if length = 0 then none else (GetByteArrayElements w jkey).2) length) := by
  constructor
  · cases hn : w.next.1 <;>
      simp [PassesThrough, key, AutoJByteArray.new, AutoJByteArray.ptr, AutoJByteArray.length,
        AutoJByteArray.delete, GetByteArrayElements, ReleaseByteArrayElements,
        throwOutOfMemoryError, ThrowNew, World.invoke, World.emit, calls_append, World.calls,
        next_engine, next_trace, hn]
  · by_cases h0 : length = 0 <;> cases hn : w.next.1 <;>
      simp [PassesThrough, rekey, AutoJByteArray.new, AutoJByteArray.ptr,
        AutoJByteArray.length, AutoJByteArray.delete, GetByteArrayElements,
        ReleaseByteArrayElements, throwOutOfMemoryError, ThrowNew, World.invoke, World.emit,
        calls_append, World.calls, next_engine, next_trace, hn, h0]

/-- C4: for a 32-byte key, when `rawKey` returns, each of the 81 bytes of its buffer
`sql` is zero, whatever `sqlite3_exec` returned.  When the key's elements are obtained
the call does return, with the code of `sqlite3_exec`; when they are not, the
dereference of the null pointer faults and the call does not return. -/
theorem rawKey_zeroes_buffer (E : Sqlite3 σ) (w : World σ) (jdb : jlong) (jkey : jbyteArray)
    (hkey : jkey.length = 32) :
    (w.succeeds 0 = true → ∃ w', rawKey E w jdb jkey 32 = Except.ok (w',
        { result := (E.sqlite3_exec w.engine jdb (some (pragmaKey jkey))).2,
          sql := List.replicate 81 NUL }))
      ∧ ∀ w' r, rawKey E w jdb jkey 32 = Except.ok (w', r) → r.sql = List.replicate 81 NUL := by
  have hs : w.succeeds 0 = w.next.1 := by
    unfold World.succeeds World.next
    cases w.script <;> rfl
  constructor
  · intro hok
    exact ⟨_, rawKey_ok E w jdb jkey (hs ▸ hok) (by omega)⟩
  · intro w' r hr
    cases hn : w.next.1 with
    | false => rw [rawKey_null E w jdb jkey hn] at hr; cases hr
    | true =>
      rw [rawKey_ok E w jdb jkey hn (by omega)] at hr
      cases hr
      rfl

set_option maxRecDepth 100000 in
/-- Witness of C4: the key `80 00 ... 00`. -/
theorem rawKey_zeroes_buffer_witness :
    highKey.length = 32
      ∧ toyWorld.succeeds 0 = true
      ∧ ∃ w', rawKey toy toyWorld 7 highKey 32 = Except.ok (w',
        { result := (toy.sqlite3_exec toyWorld.engine 7 (some (pragmaKey highKey))).2,
          sql := List.replicate 81 NUL }) :=
  ⟨by decide, rfl, (rawKey_zeroes_buffer toy toyWorld 7 highKey (by decide)).1 rfl⟩

/-- C7: `step` calls `sqlite3_step` exactly once and returns its result code unchanged;
when the library reports `SQLITE_BUSY`, so does `step`, and there is no second call. -/
theorem step_once (E : Sqlite3 σ) (w : World σ) (jstatement : jlong) :
    (step E w jstatement).2 = (E.sqlite3_step w.engine jstatement).2
      ∧ (step E w jstatement).1.engine = (E.sqlite3_step w.engine jstatement).1
      ∧ (step E w jstatement).1.trace = w.trace ++ [Event.call (Call.sqlite3_step jstatement)]
      ∧ ((E.sqlite3_step w.engine jstatement).2 = E.SQLITE_BUSY →
          (step E w jstatement).2 = E.SQLITE_BUSY) :=
  ⟨rfl, rfl, rfl, fun h => h⟩

/-- Witness of C7: the stand-in library always reports `SQLITE_BUSY` (5). -/
theorem step_once_witness :
    (step toy toyWorld 2).2 = 5
      ∧ (step toy toyWorld 2).1.trace = [Event.call (Call.sqlite3_step 2)] :=
  ⟨(step_once toy toyWorld 2).2.2.2 rfl, (step_once toy toyWorld 2).2.2.1⟩

/-! ## Lemmas on the script and on holders -/

theorem succeeds_zero (w : World σ) : w.succeeds 0 = w.next.1 := by
  unfold World.succeeds World.next
  cases w.script <;> rfl

theorem succeeds_succ (w : World σ) (k : Nat) : w.succeeds (k + 1) = w.next.2.succeeds k := by
  obtain ⟨e, t, sc, ind, sz⟩ := w
  cases sc <;> simp [World.succeeds, World.next]

theorem leBytes_length (n v : Nat) : (leBytes n v).length = n := by
  induction n generalizing v with
  | zero => rfl
  | succ n ih => simp [leBytes, ih]

theorem ofLE_leBytes (n v : Nat) : ofLE (leBytes n v) = v % 256 ^ n := by
  induction n generalizing v with
  | zero => simp [leBytes, ofLE, Nat.mod_one]
  | succ n ih => rw [leBytes, ofLE, ih, Nat.pow_succ', Nat.mod_mul]

theorem jlongAt_stored (p : Int) (rest : List Nat) (hp : IsJLong p) :
    jlongAt (leBytes 8 (p % 2 ^ (8 * 8)).toNat ++ rest) 0 = p := by
  have h1 : ((leBytes 8 (p % 2 ^ (8 * 8)).toNat ++ rest).drop (8 * 0)).take 8
      = leBytes 8 (p % 2 ^ (8 * 8)).toNat := by
    simp [leBytes_length]
  obtain ⟨hlo, hhi⟩ := hp
  simp only [jlongAt, h1, ofLE_leBytes]
  have h256 : (256 : Nat) ^ 8 = 18446744073709551616 := by norm_num
  have h2 : (2 : Int) ^ (8 * 8) = 18446744073709551616 := by norm_num
  have h63 : (2 : Int) ^ 63 = 9223372036854775808 := by norm_num
  have h63n : (2 : Nat) ^ 63 = 9223372036854775808 := by norm_num
  have h64 : (2 : Int) ^ 64 = 18446744073709551616 := by norm_num
  rw [h256, h2, h63n]
  try rw [h64]
  rw [h63] at hlo hhi
  have hm := Int.emod_nonneg p (show (18446744073709551616 : Int) ≠ 0 by norm_num)
  have hcast : ((p % 18446744073709551616).toNat : Int) = p % 18446744073709551616 :=
    Int.toNat_of_nonneg hm
  split <;> omega

theorem jlongAt_kept (bs array : jarray) (i : Nat) (hbs : bs.length = 8) (hi : 1 ≤ i) :
    jlongAt (bs ++ array.drop 8) i = jlongAt array i := by
  have h : (bs ++ array.drop 8).drop (8 * i) = array.drop (8 * i) := by
    have : 8 * i = bs.length + (8 * i - 8) := by omega
    rw [this, List.drop_append, List.drop_drop]
    congr 1
    omega
  simp only [jlongAt, h]

theorem updateHolder_zero (w : World σ) (array : jarray) (p : jlong)
    (hsz : w.sizeofSizeT = 8) (hlen : 8 ≤ array.length) :
    updateHolder w array 0 p = Except.ok
      (if w.next.1 = true then (w.next.2, leBytes 8 (p % 2 ^ (8 * 8)).toNat ++ array.drop 8)
       else (throwOutOfMemoryError w.next.2 "GetPrimitiveArrayCritical", array)) := by
  have hsz' : w.next.2.sizeofSizeT = 8 := by rw [next_sizeofSizeT, hsz]
  cases hn : w.next.1 <;>
    simp [updateHolder, GetPrimitiveArrayCritical, hn, hsz', toSizeT, hlen]
  · rfl
  · rfl

theorem holderSet_of_update (w : World σ) (holder : jarray) (handle : jlong) (rc : jint)
    (hsz : w.sizeofSizeT = 8) (hlen : 8 ≤ holder.length) :
    HolderSet (w.succeeds 0) holder handle rc
      (do let (w, a) ← updateHolder w holder 0 handle
          pure (w, { holder := a, result := rc })) := by
  rw [updateHolder_zero w holder handle hsz hlen, succeeds_zero]
  cases hn : w.next.1
  · refine ⟨_, _, rfl, rfl, ?_, ?_⟩
    · intro h; cases h
    · intro _
      refine ⟨rfl, ?_⟩
      simp [throwOutOfMemoryError, ThrowNew, World.emit]
  · refine ⟨_, _, rfl, rfl, ?_, ?_⟩
    · intro _
      refine ⟨fun hp => jlongAt_stored handle _ hp, ?_, ?_⟩
      · simp [leBytes_length]; omega
      · intro i hi
        exact jlongAt_kept _ holder i (leBytes_length _ _) hi
    · intro h; cases h

/-- C5, refuted: `openV2` run while `GetPrimitiveArrayCritical` yields `NULL` returns the
library's code 0 but leaves element 0 of the holder at 0, although the library produced
the handle 1; and `blobOpen`, when the library stores no handle, puts the indeterminate
value of its uninitialised local `blob` (here 57005) into element 0, not 0. -/
theorem holder_not_always_set :
    (openV2 toy { toyWorld with script := [true, false] } "db" 6
        (List.replicate 8 0)).toOption.map (fun r => (r.2.result, jlongAt r.2.holder 0))
        = some (0, 0)
      ∧ (toy.sqlite3_open_v2 toyWorld.engine (some "db") 6).2.2 = some 1
      ∧ (blobOpen toy { toyWorld with indeterminate := fun _ => 57005 } 1 "main" "t" "c" 1 0
        (List.replicate 8 0)).toOption.map (fun r => (r.2.result, jlongAt r.2.holder 0))
        = some (0, 57005)
      ∧ (toy.sqlite3_blob_open toyWorld.engine 1 (some "main") (some "t") (some "c") 1
        0).2.2 = none := by
  decide

/-- C5, amended: where `size_t` has 8 bytes and the holder has at least one element,
`openV2`, `prepareV2` and `blobOpen` return the library's result code.  When the holder's
elements are obtained, element 0 becomes the handle in the function's local variable
and every other element is unchanged: for `openV2` and `prepareV2` that is the handle the
library stored, or 0 when it stored none; for `blobOpen` it is the handle the library
stored, when it stored one.  When the elements are not obtained the holder is unchanged
and `OutOfMemoryError` is raised. -/
theorem holder_receives_handle (E : Sqlite3 σ) (w : World σ) (jdb jrow : jlong)
    (jfilename jsql jname jtable jcolumn : jstring) (jflags jlength : jint) (holder : jarray)
    (hsz : w.sizeofSizeT = 8) (hlen : 8 ≤ holder.length) :
    HolderSet (w.succeeds 1) holder
        ((E.sqlite3_open_v2 w.engine (GetStringUTFChars w jfilename).2 jflags).2.2.getD 0)
        (E.sqlite3_open_v2 w.engine (GetStringUTFChars w jfilename).2 jflags).2.1
        (openV2 E w jfilename jflags holder)
      ∧ HolderSet (w.succeeds 1) holder
        ((E.sqlite3_prepare_v2 w.engine jdb (GetStringUTFChars w jsql).2 jlength).2.2.getD 0)
        (E.sqlite3_prepare_v2 w.engine jdb (GetStringUTFChars w jsql).2 jlength).2.1
        (prepareV2 E w jdb jsql jlength holder)
      ∧ ∀ h, (E.sqlite3_blob_open w.engine jdb (GetStringUTFChars w jname).2
            (GetStringUTFChars w.next.2 jtable).2 (GetStringUTFChars w.next.2.next.2 jcolumn).2
            jrow jflags).2.2 = some h →
          HolderSet (w.succeeds 3) holder h
            (E.sqlite3_blob_open w.engine jdb (GetStringUTFChars w jname).2
              (GetStringUTFChars w.next.2 jtable).2
              (GetStringUTFChars w.next.2.next.2 jcolumn).2 jrow jflags).2.1
            (blobOpen E w jdb jname jtable jcolumn jrow jflags holder) := by
  refine ⟨?_, ?_, ?_⟩
  · have h := holderSet_of_update
      (w.next.2.invoke (Call.sqlite3_open_v2 (GetStringUTFChars w jfilename).2 jflags)
        (E.sqlite3_open_v2 w.engine (GetStringUTFChars w jfilename).2 jflags).1)
      holder ((E.sqlite3_open_v2 w.engine (GetStringUTFChars w jfilename).2 jflags).2.2.getD 0)
      (E.sqlite3_open_v2 w.engine (GetStringUTFChars w jfilename).2 jflags).2.1
      (by simpa [World.invoke, next_sizeofSizeT] using hsz) hlen
    rw [succeeds_succ]
    simpa [openV2, GetStringUTFChars, next_engine] using h
  · have h := holderSet_of_update
      (w.next.2.invoke (Call.sqlite3_prepare_v2 jdb (GetStringUTFChars w jsql).2 jlength)
        (E.sqlite3_prepare_v2 w.engine jdb (GetStringUTFChars w jsql).2 jlength).1)
      holder ((E.sqlite3_prepare_v2 w.engine jdb (GetStringUTFChars w jsql).2 jlength).2.2.getD 0)
      (E.sqlite3_prepare_v2 w.engine jdb (GetStringUTFChars w jsql).2 jlength).2.1
      (by simpa [World.invoke, next_sizeofSizeT] using hsz) hlen
    rw [succeeds_succ]
    simpa [prepareV2, GetStringUTFChars, next_engine] using h
  · intro hd hh
    have h := holderSet_of_update
      (w.next.2.next.2.next.2.invoke (Call.sqlite3_blob_open jdb (GetStringUTFChars w jname).2
        (GetStringUTFChars w.next.2 jtable).2 (GetStringUTFChars w.next.2.next.2 jcolumn).2
        jrow jflags)
        (E.sqlite3_blob_open w.engine jdb (GetStringUTFChars w jname).2
          (GetStringUTFChars w.next.2 jtable).2 (GetStringUTFChars w.next.2.next.2 jcolumn).2
          jrow jflags).1)
      holder hd
      (E.sqlite3_blob_open w.engine jdb (GetStringUTFChars w jname).2
          (GetStringUTFChars w.next.2 jtable).2 (GetStringUTFChars w.next.2.next.2 jcolumn).2
          jrow jflags).2.1
      (by simpa [World.invoke, next_sizeofSizeT] using hsz) hlen
    rw [succeeds_succ, succeeds_succ, succeeds_succ]
    simp only [GetStringUTFChars] at hh
    simpa [blobOpen, GetStringUTFChars, next_engine, hh] using h

/-- Witness of C5: a two-element holder `[0, 7]`; the stand-in library hands out
handle 1, which lands in element 0 while element 1 stays 7. -/
theorem holder_receives_handle_witness :
    toyWorld.sizeofSizeT = 8
      ∧ 8 ≤ (List.replicate 8 0 ++ [7, 0, 0, 0, 0, 0, 0, 0]).length
      ∧ HolderSet (toyWorld.succeeds 1) (List.replicate 8 0 ++ [7, 0, 0, 0, 0, 0, 0, 0])
        ((toy.sqlite3_open_v2 toyWorld.engine (GetStringUTFChars toyWorld "db").2 6).2.2.getD 0)
        (toy.sqlite3_open_v2 toyWorld.engine (GetStringUTFChars toyWorld "db").2 6).2.1
        (openV2 toy toyWorld "db" 6 (List.replicate 8 0 ++ [7, 0, 0, 0, 0, 0, 0, 0]))
      ∧ (openV2 toy toyWorld "db" 6 (List.replicate 8 0 ++ [7, 0, 0, 0, 0, 0, 0, 0])).toOption.map
          (fun r => (r.2.result, jlongAt r.2.holder 0, jlongAt r.2.holder 1))
        = some (0, 1, 7) :=
  ⟨rfl, by decide,
    (holder_receives_handle toy toyWorld 0 0 "db" "" "" "" "" 6 0
      (List.replicate 8 0 ++ [7, 0, 0, 0, 0, 0, 0, 0]) rfl (by decide)).1,
    by decide⟩

theorem invoke_engine (w : World σ) (c : Call) (s : σ) : (w.invoke c s).engine = s := rfl

theorem newByteArray_ok (w : World σ) (p : List jbyte) (size : jsize) (hpos : 0 < size)
    (hfit : size.toNat ≤ p.length) (h0 : w.next.1 = true) (h1 : w.next.2.next.1 = true) :
    newByteArray w p size = Except.ok (w.next.2.next.2, some (p.take size.toNat)) := by
  simp only [newByteArray, NewByteArray, GetPrimitiveArrayCritical, h0, h1, gt_iff_lt, hpos,
    ↓reduceIte, hfit]
  simp
  rfl

theorem newByteArray_oom (w : World σ) (p : List jbyte) (size : jsize)
    (h0 : w.next.1 = false) :
    newByteArray w p size
      = Except.ok (throwOutOfMemoryError w.next.2 "NewByteArray", none) := by
  simp only [newByteArray, NewByteArray, h0, Bool.false_eq_true, ↓reduceIte]
  rfl

/-- C6, refuted: the library's blob pointer is not null and its byte count is 3, yet
`columnBlob` returns null, because `NewByteArray` yielded `NULL`. -/
theorem columnBlob_null_on_allocation_failure :
    (columnBlob toy { toyWorld with script := [false] } 2 0).toOption.map (fun r => r.2)
        = some none
      ∧ (toy.sqlite3_column_blob toyWorld.engine 2 0).2 = some [1, 2, 3]
      ∧ (toy.sqlite3_column_bytes toyWorld.engine 2 0).2 = 3 := by
  decide

/-- C6, amended: `columnBlob` returns null when the library's blob pointer is null or
its byte count is not positive.  Otherwise, for a pointer `p` to at least `size` bytes:
when `NewByteArray` yields an array and its elements are obtained, `columnBlob` returns a
new array of length `size` whose bytes are the first `size` bytes at `p`; when
`NewByteArray` yields `NULL` it raises `OutOfMemoryError` and returns null. -/
theorem columnBlob_copies_blob (E : Sqlite3 σ) (w : World σ) (jstatement : jlong)
    (index : jint) (s₁ s₂ : σ) (blob : Option (List jbyte)) (size : jint)
    (hblob : E.sqlite3_column_blob w.engine jstatement index = (s₁, blob))
    (hsize : E.sqlite3_column_bytes s₁ jstatement index = (s₂, size)) :
    ((blob = none ∨ size ≤ 0) → ∃ w', columnBlob E w jstatement index = Except.ok (w', none))
      ∧ ∀ p, blob = some p → 0 < size → size.toNat ≤ p.length →
        (w.succeeds 0 = true → w.succeeds 1 = true →
          ∃ w', columnBlob E w jstatement index = Except.ok (w', some (p.take size.toNat))
            ∧ ((p.take size.toNat).length : Int) = size)
        ∧ (w.succeeds 0 = false →
          ∃ w', columnBlob E w jstatement index = Except.ok (w', none)
            ∧ w'.trace.getLast? = some (Event.ThrowNew "java/lang/OutOfMemoryError"
              "NewByteArray")) := by
  constructor
  · rintro (hnone | hle)
    · subst hnone
      exact ⟨_, by simp only [columnBlob, hblob]; rfl⟩
    · cases blob with
      | none => exact ⟨_, by simp only [columnBlob, hblob]; rfl⟩
      | some p =>
        exact ⟨_, by
          simp only [columnBlob, hblob, World.invoke, hsize, gt_iff_lt, not_lt.mpr hle,
            ↓reduceIte]
          rfl⟩
  · intro p hp hpos hfit
    subst hp
    constructor
    · intro h0 h1
      refine ⟨((w.invoke (Call.sqlite3_column_blob jstatement index)
        s₁).invoke (Call.sqlite3_column_bytes jstatement index) s₂).next.2.next.2, ?_, ?_⟩
      case refine_1 =>
        simp only [columnBlob, hblob, invoke_engine, hsize, gt_iff_lt, hpos, ↓reduceIte]
        exact newByteArray_ok ((w.invoke (Call.sqlite3_column_blob jstatement index)
          s₁).invoke (Call.sqlite3_column_bytes jstatement index) s₂) p size hpos hfit
          ((succeeds_zero _).symm.trans h0)
          ((succeeds_zero _).symm.trans (((succeeds_succ _ 0).symm).trans h1))
      case refine_2 =>
        rw [List.length_take, Nat.min_eq_left hfit]
        exact Int.toNat_of_nonneg (le_of_lt hpos)
    · intro h0
      refine ⟨throwOutOfMemoryError ((w.invoke (Call.sqlite3_column_blob jstatement index)
        s₁).invoke (Call.sqlite3_column_bytes jstatement index) s₂).next.2 "NewByteArray",
        ?_, ?_⟩
      · simp only [columnBlob, hblob, invoke_engine, hsize, gt_iff_lt, hpos, ↓reduceIte]
        exact newByteArray_oom ((w.invoke (Call.sqlite3_column_blob jstatement index)
          s₁).invoke (Call.sqlite3_column_bytes jstatement index) s₂) p size
          ((succeeds_zero _).symm.trans h0)
      · simp [throwOutOfMemoryError, ThrowNew, World.emit]

/-- Witness of C6: the stand-in library's three-byte blob is copied. -/
theorem columnBlob_copies_blob_witness :
    toy.sqlite3_column_blob toyWorld.engine 2 0 = (toyWorld.engine, some [1, 2, 3])
      ∧ toy.sqlite3_column_bytes toyWorld.engine 2 0 = (toyWorld.engine, 3)
      ∧ ∃ w', columnBlob toy toyWorld 2 0 = Except.ok (w', some ([1, 2, 3].take (3 : Int).toNat))
        ∧ ((([1, 2, 3] : List jbyte).take (3 : Int).toNat).length : Int) = 3 :=
  ⟨rfl, rfl,
    ((columnBlob_copies_blob toy toyWorld 2 0 toyWorld.engine toyWorld.engine (some [1, 2, 3]) 3
      rfl rfl).2 [1, 2, 3] rfl (by decide) (by decide)).1 rfl rfl⟩

theorem calls_throw (cls message : String) :
    World.calls [Event.ThrowNew cls message] = [] := rfl

theorem calls_call (c : Call) : World.calls [Event.call c] = [c] := rfl

theorem calls_get (j : jbyteArray) : World.calls [Event.GetByteArrayElements j] = [] := rfl

theorem calls_release (j : jbyteArray) (mode : ReleaseMode) :
    World.calls [Event.ReleaseByteArrayElements j mode] = [] := rfl

theorem returnsThrough_of_update (w w₀ : World σ) (holder : jarray) (handle : jlong)
    (c : Call) (reply : σ × jint) (hsz : w.sizeofSizeT ≤ holder.length)
    (he : w.engine = reply.1) (ht : World.calls w.trace = World.calls w₀.trace ++ [c]) :
    ReturnsThrough w₀
      (do let (w, a) ← updateHolder w holder 0 handle
          pure (w, ({ holder := a, result := reply.2 } : Held)))
      (fun r => r.result) c reply := by
  have hsz' : w.next.2.sizeofSizeT ≤ holder.length := by rw [next_sizeofSizeT]; exact hsz
  cases hn : w.next.1
  · refine ⟨throwOutOfMemoryError w.next.2 "GetPrimitiveArrayCritical", ⟨holder, reply.2⟩, ?_,
      rfl, ?_, ?_⟩
    · simp only [updateHolder, GetPrimitiveArrayCritical, hn, Bool.false_eq_true, ↓reduceIte]
      rfl
    · simp [throwOutOfMemoryError, ThrowNew, World.emit, next_engine, he]
    · simp only [throwOutOfMemoryError, ThrowNew, World.emit, next_trace, calls_append,
        calls_throw, List.append_nil, ht]
  · refine ⟨w.next.2,
      ⟨holder.take (0 * w.next.2.sizeofSizeT)
          ++ leBytes w.next.2.sizeofSizeT (toSizeT w.next.2 handle)
          ++ holder.drop (0 * w.next.2.sizeofSizeT + w.next.2.sizeofSizeT), reply.2⟩,
      ?_, rfl, ?_, ?_⟩
    · have hsz'' : 0 * w.next.2.sizeofSizeT + w.next.2.sizeofSizeT ≤ holder.length := by
        omega
      simp only [updateHolder, GetPrimitiveArrayCritical, hn, ↓reduceIte, hsz'']
      rfl
    · simp [next_engine, he]
    · simp [next_trace, ht]

/-- C8: no listed operation swallows or changes a result code.  Each of `exec`, `reset`,
`clearBindings`, `finalize`, `closeV2`, the seven `bind` functions, `blobRead`,
`blobWrite`, `blobReopen`, `blobClose`, `openV2`, `prepareV2`, `blobOpen` and
`walCheckpointV2` makes exactly one library call, with the caller's arguments as
marshalled, and returns that call's result code; `resetAndClearBindings` returns the
code of `sqlite3_reset` when it is not `SQLITE_OK` and the code of
`sqlite3_clear_bindings` otherwise.  The functions that store through pointers return
provided the stores are in bounds: the holder has room for a `size_t`, and the bytes
`sqlite3_blob_read` stores fit the destination array at the given offset. -/
theorem result_codes_pass_through (E : Sqlite3 σ) (w : World σ) (h row v : jlong)
    (i n off x flags mode : jint) (d : jdouble) (s t u : jstring) (name : Option jstring)
    (bytes : jbyteArray) (holder : jarray)
    (hholder : w.sizeofSizeT ≤ holder.length)
    (hread : ∀ data, (E.sqlite3_blob_read w.engine h n off).2.2 = some data →
      w.succeeds 0 = true ∧ 0 ≤ i ∧ i.toNat + data.length ≤ bytes.length) :
    PassesThrough w (exec E w h s) (Call.sqlite3_exec h (GetStringUTFChars w s).2)
        (E.sqlite3_exec w.engine h (GetStringUTFChars w s).2)
      ∧ PassesThrough w (reset E w h) (Call.sqlite3_reset h) (E.sqlite3_reset w.engine h)
      ∧ PassesThrough w (clearBindings E w h) (Call.sqlite3_clear_bindings h)
        (E.sqlite3_clear_bindings w.engine h)
      ∧ PassesThrough w (finalize E w h) (Call.sqlite3_finalize h)
        (E.sqlite3_finalize w.engine h)
      ∧ PassesThrough w (closeV2 E w h) (Call.sqlite3_close_v2 h)
        (E.sqlite3_close_v2 w.engine h)
      ∧ PassesThrough w (bindInt E w h i x) (Call.sqlite3_bind_int h i x)
        (E.sqlite3_bind_int w.engine h i x)
      ∧ PassesThrough w (bindInt64 E w h i v) (Call.sqlite3_bind_int64 h i v)
        (E.sqlite3_bind_int64 w.engine h i v)
      ∧ PassesThrough w (bindDouble E w h i d) (Call.sqlite3_bind_double h i d)
        (E.sqlite3_bind_double w.engine h i d)
      ∧ PassesThrough w (bindNull E w h i) (Call.sqlite3_bind_null h i)
        (E.sqlite3_bind_null w.engine h i)
      ∧ PassesThrough w (bindText E w h i s)
        (Call.sqlite3_bind_text h i (GetStringUTFChars w s).2 (GetStringUTFLength s))
        (E.sqlite3_bind_text w.engine h i (GetStringUTFChars w s).2 (GetStringUTFLength s))
      ∧ PassesThrough w (bindBlob E w h i bytes n)
        (Call.sqlite3_bind_blob h i (GetByteArrayElements w bytes).2 n)
        (E.sqlite3_bind_blob w.engine h i (GetByteArrayElements w bytes).2 n)
      ∧ PassesThrough w (bindZeroBlob E w h i n) (Call.sqlite3_bind_zeroblob h i n)
        (E.sqlite3_bind_zeroblob w.engine h i n)
      ∧ ReturnsThrough w (blobRead E w h off bytes i n) (fun r => r.result)
        (Call.sqlite3_blob_read h n off)
        ((E.sqlite3_blob_read w.engine h n off).1, (E.sqlite3_blob_read w.engine h n off).2.1)
      ∧ PassesThrough w (blobWrite E w h off bytes i n)
        (Call.sqlite3_blob_write h (advance (GetByteArrayElements w bytes).2 i) n off)
        (E.sqlite3_blob_write w.engine h (advance (GetByteArrayElements w bytes).2 i) n off)
      ∧ PassesThrough w (blobReopen E w h row) (Call.sqlite3_blob_reopen h row)
        (E.sqlite3_blob_reopen w.engine h row)
      ∧ PassesThrough w (blobClose E w h) (Call.sqlite3_blob_close h)
        (E.sqlite3_blob_close w.engine h)
      ∧ ReturnsThrough w (openV2 E w s flags holder) (fun r => r.result)
        (Call.sqlite3_open_v2 (GetStringUTFChars w s).2 flags)
        ((E.sqlite3_open_v2 w.engine (GetStringUTFChars w s).2 flags).1,
          (E.sqlite3_open_v2 w.engine (GetStringUTFChars w s).2 flags).2.1)
      ∧ ReturnsThrough w (prepareV2 E w h s n holder) (fun r => r.result)
        (Call.sqlite3_prepare_v2 h (GetStringUTFChars w s).2 n)
        ((E.sqlite3_prepare_v2 w.engine h (GetStringUTFChars w s).2 n).1,
          (E.sqlite3_prepare_v2 w.engine h (GetStringUTFChars w s).2 n).2.1)
      ∧ ReturnsThrough w (blobOpen E w h s t u row flags holder) (fun r => r.result)
        (Call.sqlite3_blob_open h (GetStringUTFChars w s).2 (GetStringUTFChars w.next.2 t).2
          (GetStringUTFChars w.next.2.next.2 u).2 row flags)
        ((E.sqlite3_blob_open w.engine h (GetStringUTFChars w s).2
            (GetStringUTFChars w.next.2 t).2 (GetStringUTFChars w.next.2.next.2 u).2 row
            flags).1,
          (E.sqlite3_blob_open w.engine h (GetStringUTFChars w s).2
            (GetStringUTFChars w.next.2 t).2 (GetStringUTFChars w.next.2.next.2 u).2 row
            flags).2.1)
      ∧ PassesThrough w (walCheckpointV2 E w h name mode)
        (Call.sqlite3_wal_checkpoint_v2 h (name.bind fun s' => (GetStringUTFChars w s').2) mode)
        (E.sqlite3_wal_checkpoint_v2 w.engine h
          (name.bind fun s' => (GetStringUTFChars w s').2) mode)
      ∧ (resetAndClearBindings E w h).2
        = if (E.sqlite3_reset w.engine h).2 ≠ E.SQLITE_OK then (E.sqlite3_reset w.engine h).2
          else (E.sqlite3_clear_bindings (E.sqlite3_reset w.engine h).1 h).2 := by
  have hpass : ∀ (c : Call) (reply : σ × jint),
      PassesThrough w (w.invoke c reply.1, reply.2) c reply := by
    intro c reply
    exact ⟨rfl, rfl, by simp only [World.invoke, calls_append, calls_call]⟩
  have hpassNext : ∀ (c : Call) (reply : σ × jint),
      PassesThrough w (w.next.2.invoke c reply.1, reply.2) c reply := by
    intro c reply
    exact ⟨rfl, rfl, by simp only [World.invoke, calls_append, calls_call, next_trace]⟩
  refine ⟨?_, ?_, ?_, ?_, ?_, ?_, ?_, ?_, ?_, ?_, ?_, ?_, ?_, ?_, ?_, ?_, ?_, ?_, ?_, ?_, ?_⟩
  · simpa only [exec, GetStringUTFChars, next_engine] using hpassNext _ _
  · exact hpass _ _
  · exact hpass _ _
  · exact hpass _ _
  · exact hpass _ _
  · exact hpass _ _
  · exact hpass _ _
  · exact hpass _ _
  · exact hpass _ _
  · simpa only [bindText, GetStringUTFChars, next_engine] using hpassNext _ _
  · cases hn : w.next.1 <;>
      simp [PassesThrough, bindBlob, AutoJByteArray.new, AutoJByteArray.ptr,
        AutoJByteArray.length, AutoJByteArray.delete, GetByteArrayElements,
        ReleaseByteArrayElements, throwOutOfMemoryError, ThrowNew, World.invoke, World.emit,
        calls_append, World.calls, next_engine, next_trace, hn]
  · exact hpass _ _
  · have hcalls : World.calls (ReleaseByteArrayElements
          ((w.next.2.emit (Event.GetByteArrayElements bytes)).invoke
            (Call.sqlite3_blob_read h n off) (E.sqlite3_blob_read w.engine h n off).1)
          bytes ReleaseMode.copyBack).trace
        = World.calls w.trace ++ [Call.sqlite3_blob_read h n off] := by
      simp only [ReleaseByteArrayElements, World.invoke, World.emit, calls_append, calls_call,
        calls_get, calls_release, next_trace, List.append_nil]
    cases hst : (E.sqlite3_blob_read w.engine h n off).2.2 with
    | none =>
      refine ⟨_, ⟨(GetByteArrayElements w bytes).2.getD bytes,
        (E.sqlite3_blob_read w.engine h n off).2.1⟩, ?_, rfl, rfl, hcalls⟩
      simp only [blobRead, GetByteArrayElements, next_engine, World.emit, hst]
      rfl
    | some data =>
      obtain ⟨hok, h0, hfit⟩ := hread data hst
      rw [succeeds_zero] at hok
      refine ⟨_, ⟨bytes.take i.toNat ++ data ++ bytes.drop (i.toNat + data.length),
        (E.sqlite3_blob_read w.engine h n off).2.1⟩, ?_, rfl, rfl, hcalls⟩
      simp only [blobRead, GetByteArrayElements, next_engine, World.emit, hst, hok,
        ↓reduceIte, storeBytes, h0, hfit, and_self]
      rfl
  · cases hn : w.next.1 <;>
      simp [PassesThrough, blobWrite, GetByteArrayElements, ReleaseByteArrayElements,
        World.invoke, World.emit, calls_append, World.calls, next_engine, next_trace, hn]
  · exact hpass _ _
  · exact hpass _ _
  · have hu := returnsThrough_of_update
      (w.next.2.invoke (Call.sqlite3_open_v2 (GetStringUTFChars w s).2 flags)
        (E.sqlite3_open_v2 w.engine (GetStringUTFChars w s).2 flags).1) w holder
      ((E.sqlite3_open_v2 w.engine (GetStringUTFChars w s).2 flags).2.2.getD 0)
      (Call.sqlite3_open_v2 (GetStringUTFChars w s).2 flags)
      ((E.sqlite3_open_v2 w.engine (GetStringUTFChars w s).2 flags).1,
        (E.sqlite3_open_v2 w.engine (GetStringUTFChars w s).2 flags).2.1)
      (by simpa [World.invoke, next_sizeofSizeT] using hholder) rfl
      (by simp only [World.invoke, calls_append, calls_call, next_trace])
    simpa [openV2, GetStringUTFChars, next_engine] using hu
  · have hu := returnsThrough_of_update
      (w.next.2.invoke (Call.sqlite3_prepare_v2 h (GetStringUTFChars w s).2 n)
        (E.sqlite3_prepare_v2 w.engine h (GetStringUTFChars w s).2 n).1) w holder
      ((E.sqlite3_prepare_v2 w.engine h (GetStringUTFChars w s).2 n).2.2.getD 0)
      (Call.sqlite3_prepare_v2 h (GetStringUTFChars w s).2 n)
      ((E.sqlite3_prepare_v2 w.engine h (GetStringUTFChars w s).2 n).1,
        (E.sqlite3_prepare_v2 w.engine h (GetStringUTFChars w s).2 n).2.1)
      (by simpa [World.invoke, next_sizeofSizeT] using hholder) rfl
      (by simp only [World.invoke, calls_append, calls_call, next_trace])
    simpa [prepareV2, GetStringUTFChars, next_engine] using hu
  · have hu := returnsThrough_of_update
      (w.next.2.next.2.next.2.invoke (Call.sqlite3_blob_open h (GetStringUTFChars w s).2
          (GetStringUTFChars w.next.2 t).2 (GetStringUTFChars w.next.2.next.2 u).2 row flags)
        (E.sqlite3_blob_open w.engine h (GetStringUTFChars w s).2
          (GetStringUTFChars w.next.2 t).2 (GetStringUTFChars w.next.2.next.2 u).2 row
          flags).1) w holder
      ((E.sqlite3_blob_open w.engine h (GetStringUTFChars w s).2
          (GetStringUTFChars w.next.2 t).2 (GetStringUTFChars w.next.2.next.2 u).2 row
          flags).2.2.getD (w.indeterminate 0))
      (Call.sqlite3_blob_open h (GetStringUTFChars w s).2
          (GetStringUTFChars w.next.2 t).2 (GetStringUTFChars w.next.2.next.2 u).2 row flags)
      ((E.sqlite3_blob_open w.engine h (GetStringUTFChars w s).2
          (GetStringUTFChars w.next.2 t).2 (GetStringUTFChars w.next.2.next.2 u).2 row
          flags).1,
        (E.sqlite3_blob_open w.engine h (GetStringUTFChars w s).2
          (GetStringUTFChars w.next.2 t).2 (GetStringUTFChars w.next.2.next.2 u).2 row
          flags).2.1)
      (by simpa [World.invoke, next_sizeofSizeT] using hholder) rfl
      (by simp only [World.invoke, calls_append, calls_call, next_trace])
    simpa [blobOpen, GetStringUTFChars, next_engine] using hu
  · cases name with
    | none => exact hpass _ _
    | some s' =>
      simpa only [walCheckpointV2, GetStringUTFChars, next_engine, Option.bind] using
        hpassNext _ _
  · by_cases hok : E.SQLITE_OK = (E.sqlite3_reset w.engine h).2
    · simp [resetAndClearBindings, World.invoke, hok.symm]
    · have hok' : ¬ (E.sqlite3_reset w.engine h).2 = E.SQLITE_OK := fun e => hok e.symm
      simp [resetAndClearBindings, hok, hok']

/-- Witness of C8: over the stand-in library, with an 8-byte holder and a 4-byte
destination into which `sqlite3_blob_read` stores 2 bytes at offset 1. -/
theorem result_codes_pass_through_witness :
    toyWorld.sizeofSizeT ≤ (List.replicate 8 0).length
      ∧ (∀ data, (toy.sqlite3_blob_read toyWorld.engine 3 2 0).2.2 = some data →
        toyWorld.succeeds 0 = true ∧ 0 ≤ (1 : jint)
          ∧ (1 : jint).toNat + data.length ≤ ([0, 0, 0, 0] : jbyteArray).length)
      ∧ PassesThrough toyWorld (exec toy toyWorld 3 "COMMIT")
        (Call.sqlite3_exec 3 (GetStringUTFChars toyWorld "COMMIT").2)
        (toy.sqlite3_exec toyWorld.engine 3 (GetStringUTFChars toyWorld "COMMIT").2)
      ∧ (blobRead toy toyWorld 3 0 [0, 0, 0, 0] 1 2).toOption.map (fun r => r.2)
        = some { array := [0, 9, 9, 0], result := 0 } :=
  ⟨by decide, by decide,
    (result_codes_pass_through toy toyWorld 3 1 42 1 2 0 7 6 0 0 "COMMIT" "t" "c" none
      [0, 0, 0, 0] (List.replicate 8 0) (by decide) (by decide)).1,
    by decide⟩

/-- C9: `reset` calls `sqlite3_reset` once and nothing else, so never
`sqlite3_clear_bindings`; the library is left exactly as `sqlite3_reset` leaves it.
Hence, the library's own reset keeping the bound values (`hkeeps`), every parameter has
the same bound value after `reset` as before.  `clearBindings` is the function that
calls `sqlite3_clear_bindings`. -/
theorem reset_retains_bindings {β : Type} (E : Sqlite3 σ) (w : World σ) (jstatement : jlong)
    (bound : σ → jlong → jint → β)
    (hkeeps : ∀ s i, bound (E.sqlite3_reset s jstatement).1 jstatement i
      = bound s jstatement i) :
    World.calls (reset E w jstatement).1.trace
        = World.calls w.trace ++ [Call.sqlite3_reset jstatement]
      ∧ (reset E w jstatement).1.engine = (E.sqlite3_reset w.engine jstatement).1
      ∧ (∀ i, bound (reset E w jstatement).1.engine jstatement i = bound w.engine jstatement i)
      ∧ World.calls (clearBindings E w jstatement).1.trace
        = World.calls w.trace ++ [Call.sqlite3_clear_bindings jstatement]
      ∧ (clearBindings E w jstatement).1.engine
        = (E.sqlite3_clear_bindings w.engine jstatement).1 := by
  refine ⟨?_, rfl, fun i => hkeeps w.engine i, ?_, rfl⟩
  · simp only [reset, World.invoke, calls_append, calls_call]
  · simp only [clearBindings, World.invoke, calls_append, calls_call]

/-- Witness of C9: in the stand-in library, 42 bound to parameter 1 is still bound after
`reset`, and gone after `clearBindings`. -/
theorem reset_retains_bindings_witness :
    (∀ s i, Toy.bound (toy.sqlite3_reset s 2).1 2 i = Toy.bound s 2 i)
      ∧ Toy.bound (bindInt64 toy toyWorld 2 1 42).1.engine 2 1 = some 42
      ∧ (∀ i, Toy.bound (reset toy (bindInt64 toy toyWorld 2 1 42).1 2).1.engine 2 i
        = Toy.bound (bindInt64 toy toyWorld 2 1 42).1.engine 2 i)
      ∧ Toy.bound (clearBindings toy (bindInt64 toy toyWorld 2 1 42).1 2).1.engine 2 1 = none :=
  ⟨fun _ _ => rfl, by decide,
    (reset_retains_bindings toy (bindInt64 toy toyWorld 2 1 42).1 2 Toy.bound
      (fun _ _ => rfl)).2.2.1,
    by decide⟩

/-- C10, refuted: a database is opened, a statement is prepared on it and never
finalized, and `closeV2` is called: it returns 0 (`SQLITE_OK`), not 5 (`SQLITE_BUSY`),
while statement 2 is still live; the connection is left a zombie. -/
theorem closeV2_with_live_statement_not_busy :
    closeWithLiveStatement.toOption.map
        (fun r => (r.2, r.1.engine.statements, r.1.engine.zombie, World.calls r.1.trace))
        = some (0, [2], true, [Call.sqlite3_open_v2 (some "db") 6,
            Call.sqlite3_prepare_v2 1 (some "SELECT 1") (-1), Call.sqlite3_close_v2 1])
      ∧ toy.SQLITE_BUSY = 5 := by
  decide

/-- C10, amended: `closeV2` calls `sqlite3_close_v2` exactly once and returns its result
code unchanged, whatever statements or blob handles are live; it keeps no record of them
and makes no check of its own.  So `closeV2` fails with `SQLITE_BUSY` exactly when the
library's `sqlite3_close_v2` reports `SQLITE_BUSY`, and the database is left in the state
the library left it in. -/
theorem closeV2_defers_to_library (E : Sqlite3 σ) (w : World σ) (jdb : jlong) :
    PassesThrough w (closeV2 E w jdb) (Call.sqlite3_close_v2 jdb)
        (E.sqlite3_close_v2 w.engine jdb)
      ∧ ((closeV2 E w jdb).2 = E.SQLITE_BUSY
        ↔ (E.sqlite3_close_v2 w.engine jdb).2 = E.SQLITE_BUSY) :=
  ⟨⟨rfl, rfl, by simp only [closeV2, World.invoke, calls_append, calls_call]⟩, Iff.rfl⟩

/-! ## Released handles, checkpoints and the trace callback -/

theorem passesThrough_invoke (w : World σ) (c : Call) (reply : σ × jint) :
    PassesThrough w (w.invoke c reply.1, reply.2) c reply :=
  ⟨rfl, rfl, by simp only [World.invoke, calls_append, calls_call]⟩

theorem passesThrough_next_invoke (w : World σ) (c : Call) (reply : σ × jint) :
    PassesThrough w (w.next.2.invoke c reply.1, reply.2) c reply :=
  ⟨rfl, rfl, by simp only [World.invoke, calls_append, calls_call, next_trace]⟩

theorem blobRead_returnsThrough (E : Sqlite3 σ) (w : World σ) (h : jlong) (off n i : jint)
    (bytes : jbyteArray)
    (hread : ∀ data, (E.sqlite3_blob_read w.engine h n off).2.2 = some data →
      w.succeeds 0 = true ∧ 0 ≤ i ∧ i.toNat + data.length ≤ bytes.length) :
    ReturnsThrough w (blobRead E w h off bytes i n) (fun r => r.result)
      (Call.sqlite3_blob_read h n off)
      ((E.sqlite3_blob_read w.engine h n off).1, (E.sqlite3_blob_read w.engine h n off).2.1) := by
  have hcalls : World.calls (ReleaseByteArrayElements
        ((w.next.2.emit (Event.GetByteArrayElements bytes)).invoke
          (Call.sqlite3_blob_read h n off) (E.sqlite3_blob_read w.engine h n off).1)
        bytes ReleaseMode.copyBack).trace
      = World.calls w.trace ++ [Call.sqlite3_blob_read h n off] := by
    simp only [ReleaseByteArrayElements, World.invoke, World.emit, calls_append, calls_call,
      calls_get, calls_release, next_trace, List.append_nil]
  cases hst : (E.sqlite3_blob_read w.engine h n off).2.2 with
  | none =>
    refine ⟨_, ⟨(GetByteArrayElements w bytes).2.getD bytes,
      (E.sqlite3_blob_read w.engine h n off).2.1⟩, ?_, rfl, rfl, hcalls⟩
    simp only [blobRead, GetByteArrayElements, next_engine, World.emit, hst]
    rfl
  | some data =>
    obtain ⟨hok, h0, hfit⟩ := hread data hst
    rw [succeeds_zero] at hok
    refine ⟨_, ⟨bytes.take i.toNat ++ data ++ bytes.drop (i.toNat + data.length),
      (E.sqlite3_blob_read w.engine h n off).2.1⟩, ?_, rfl, rfl, hcalls⟩
    simp only [blobRead, GetByteArrayElements, next_engine, World.emit, hst, hok,
      ↓reduceIte, storeBytes, h0, hfit, and_self]
    rfl

theorem blobWrite_passesThrough (E : Sqlite3 σ) (w : World σ) (h : jlong) (off n i : jint)
    (bytes : jbyteArray) :
    PassesThrough w (blobWrite E w h off bytes i n)
      (Call.sqlite3_blob_write h (advance (GetByteArrayElements w bytes).2 i) n off)
      (E.sqlite3_blob_write w.engine h (advance (GetByteArrayElements w bytes).2 i) n off) := by
  cases hn : w.next.1 <;>
    simp [PassesThrough, blobWrite, GetByteArrayElements, ReleaseByteArrayElements,
      World.invoke, World.emit, calls_append, World.calls, next_engine, next_trace, hn]

/-- C12, refuted: a second `finalize` of statement 2 does invoke the library on the
released handle, the trace holds two calls of `sqlite3_finalize` with it, and returns
what the library returns (here 0, no error); and `blobBytes` after `blobClose` calls
`sqlite3_blob_bytes` with the closed handle. -/
theorem finalize_twice_invokes_library_twice :
    World.calls (finalize toy (finalize toy toyWorld 2).1 2).1.trace
        = [Call.sqlite3_finalize 2, Call.sqlite3_finalize 2]
      ∧ (finalize toy (finalize toy toyWorld 2).1 2).2 = 0
      ∧ World.calls (blobBytes toy (blobClose toy toyWorld 3).1 3).1.trace
        = [Call.sqlite3_blob_close 3, Call.sqlite3_blob_bytes 3] := by
  decide

/-- C12, amended: the wrapper keeps no record of released handles.  A `finalize` after a
`finalize` of the same handle calls `sqlite3_finalize` with that handle again and returns
its result code; and after `blobClose`, each of `blobBytes`, `blobReopen`, `blobClose`,
`blobWrite` and `blobRead` calls its library entry point with the closed handle and
returns what that returns (`blobRead` provided the bytes the library stores fit the
destination). -/
theorem released_handles_reach_library (E : Sqlite3 σ) (w : World σ) (h row : jlong)
    (off n i : jint) (bytes : jbyteArray)
    (hread : ∀ data,
      (E.sqlite3_blob_read (blobClose E w h).1.engine h n off).2.2 = some data →
        (blobClose E w h).1.succeeds 0 = true ∧ 0 ≤ i ∧ i.toNat + data.length ≤ bytes.length) :
    PassesThrough (finalize E w h).1 (finalize E (finalize E w h).1 h)
        (Call.sqlite3_finalize h) (E.sqlite3_finalize (finalize E w h).1.engine h)
      ∧ PassesThrough (blobClose E w h).1 (blobBytes E (blobClose E w h).1 h)
        (Call.sqlite3_blob_bytes h) (E.sqlite3_blob_bytes (blobClose E w h).1.engine h)
      ∧ PassesThrough (blobClose E w h).1 (blobReopen E (blobClose E w h).1 h row)
        (Call.sqlite3_blob_reopen h row)
        (E.sqlite3_blob_reopen (blobClose E w h).1.engine h row)
      ∧ PassesThrough (blobClose E w h).1 (blobClose E (blobClose E w h).1 h)
        (Call.sqlite3_blob_close h) (E.sqlite3_blob_close (blobClose E w h).1.engine h)
      ∧ PassesThrough (blobClose E w h).1 (blobWrite E (blobClose E w h).1 h off bytes i n)
        (Call.sqlite3_blob_write h
          (advance (GetByteArrayElements (blobClose E w h).1 bytes).2 i) n off)
        (E.sqlite3_blob_write (blobClose E w h).1.engine h
          (advance (GetByteArrayElements (blobClose E w h).1 bytes).2 i) n off)
      ∧ ReturnsThrough (blobClose E w h).1 (blobRead E (blobClose E w h).1 h off bytes i n)
        (fun r => r.result) (Call.sqlite3_blob_read h n off)
        ((E.sqlite3_blob_read (blobClose E w h).1.engine h n off).1,
          (E.sqlite3_blob_read (blobClose E w h).1.engine h n off).2.1) :=
  ⟨passesThrough_invoke _ _ _, passesThrough_invoke _ _ _, passesThrough_invoke _ _ _,
    passesThrough_invoke _ _ _, blobWrite_passesThrough E _ h off n i bytes,
    blobRead_returnsThrough E _ h off n i bytes hread⟩

/-- Witness of C12: over the stand-in library, reading 2 bytes into a 4-byte array at
offset 1 through the closed handle 3. -/
theorem released_handles_reach_library_witness :
    (∀ data, (toy.sqlite3_blob_read (blobClose toy toyWorld 3).1.engine 3 2 0).2.2 = some data →
        (blobClose toy toyWorld 3).1.succeeds 0 = true ∧ 0 ≤ (1 : jint)
          ∧ (1 : jint).toNat + data.length ≤ ([0, 0, 0, 0] : jbyteArray).length)
      ∧ PassesThrough (finalize toy toyWorld 3).1 (finalize toy (finalize toy toyWorld 3).1 3)
        (Call.sqlite3_finalize 3) (toy.sqlite3_finalize (finalize toy toyWorld 3).1.engine 3) :=
  ⟨by decide,
    (released_handles_reach_library toy toyWorld 3 1 0 2 1 [0, 0, 0, 0] (by decide)).1⟩

/-- C15, refuted: a checkpoint that moves 3 frames returns 0 (`SQLITE_OK`), not 3. -/
theorem walCheckpointV2_not_frame_count :
    (walCheckpointV2 checkpointing toyWorld 1 none 0).2 = 0
      ∧ (checkpointing.wal_checkpoint_counts toyWorld.engine 1 none 0).2 = 3 := by
  decide

/-- C15, amended: for every database and checkpoint mode, `walCheckpointV2` calls
`sqlite3_wal_checkpoint_v2` once and returns its result code; it passes null for both
frame-count out-parameters, so the number of frames moved does not reach the caller. -/
theorem walCheckpointV2_returns_result_code (E : Sqlite3 σ) (w : World σ) (jdb : jlong)
    (jname : Option jstring) (mode : jint) :
    PassesThrough w (walCheckpointV2 E w jdb jname mode)
      (Call.sqlite3_wal_checkpoint_v2 jdb (jname.bind fun s => (GetStringUTFChars w s).2) mode)
      (E.sqlite3_wal_checkpoint_v2 w.engine jdb
        (jname.bind fun s => (GetStringUTFChars w s).2) mode) := by
  cases jname with
  | none => exact passesThrough_invoke _ _ _
  | some s =>
    simpa only [walCheckpointV2, GetStringUTFChars, next_engine, Option.bind] using
      passesThrough_next_invoke w _ _

/-- C20 at a ROW event, in a build with `SELEKT_LOG`: the callback returns 0 but emits
four records, ROW, PROFILE, STMT and CLOSE, because no `case` of its `switch` ends in
`break`; a PROFILE event emits three, a STMT event two, and only a CLOSE event emits just
its own.  In a build without `SELEKT_LOG` no record is emitted at all. -/
theorem traceV2_callback_falls_through :
    traceV2_callback toy true toyWorld toy.SQLITE_TRACE_ROW
        = ({ toyWorld with trace := [Event.log "ROW: %p", Event.log "PROFILE: %p %lldns",
            Event.log "STMT: %p %s", Event.log "CLOSE: %p"] }, 0)
      ∧ (traceV2_callback toy true toyWorld toy.SQLITE_TRACE_PROFILE).1.trace
        = [Event.log "PROFILE: %p %lldns", Event.log "STMT: %p %s", Event.log "CLOSE: %p"]
      ∧ (traceV2_callback toy true toyWorld toy.SQLITE_TRACE_STMT).1.trace
        = [Event.log "STMT: %p %s", Event.log "CLOSE: %p"]
      ∧ (traceV2_callback toy true toyWorld toy.SQLITE_TRACE_CLOSE).1.trace
        = [Event.log "CLOSE: %p"]
      ∧ (traceV2_callback toy false toyWorld toy.SQLITE_TRACE_ROW).1.trace = [] := by
  refine ⟨rfl, ?_, ?_, ?_, ?_⟩ <;> decide

/-! ## The wrapper over the engine of the spec -/

theorem live_put (s : Core) (stmt : jlong) (st : Statement) (hst : st.finalized = false) :
    (s.put stmt st).live stmt = some st := by
  simp [Core.live, Core.put, hst]

theorem live_finalized (s : Core) (stmt : jlong) (st : Statement)
    (hlive : s.live stmt = some st) : st.finalized = false := by
  unfold Core.live at hlive
  cases hs : s.statements stmt with
  | none => simp [hs] at hlive
  | some st' =>
    simp only [hs] at hlive
    split at hlive
    · cases hlive
    · cases hlive
      simp_all

theorem live_statements (s : Core) (stmt : jlong) (st : Statement)
    (hlive : s.live stmt = some st) : s.statements stmt = some st := by
  unfold Core.live at hlive
  cases hs : s.statements stmt with
  | none => simp [hs] at hlive
  | some st' =>
    simp only [hs] at hlive
    split at hlive
    · cases hlive
    · cases hlive
      rfl

/-- C11: over the engine of the spec, for every live statement and every index outside
`[1, parameterCount]`, where `parameterCount` is what `bindParameterCount` returns, each
of `bindInt`, `bindInt64`, `bindDouble`, `bindNull`, `bindText`, `bindBlob` and
`bindZeroBlob` returns `SQLITE_RANGE` whatever the value, and binds nothing. -/
theorem bind_out_of_range (w : World Core) (jstatement : jlong) (index x n : jint) (v : jlong)
    (d : jdouble) (text : jstring) (bytes : jbyteArray) (st : Statement)
    (hlive : w.engine.live jstatement = some st)
    (hout : index < 1 ∨ (bindParameterCount core w jstatement).2 < index) :
    bindInt core w jstatement index x
        = (w.invoke (Call.sqlite3_bind_int jstatement index x) w.engine, core.SQLITE_RANGE)
      ∧ bindInt64 core w jstatement index v
        = (w.invoke (Call.sqlite3_bind_int64 jstatement index v) w.engine, core.SQLITE_RANGE)
      ∧ bindDouble core w jstatement index d
        = (w.invoke (Call.sqlite3_bind_double jstatement index d) w.engine, core.SQLITE_RANGE)
      ∧ bindNull core w jstatement index
        = (w.invoke (Call.sqlite3_bind_null jstatement index) w.engine, core.SQLITE_RANGE)
      ∧ (bindText core w jstatement index text).2 = core.SQLITE_RANGE
      ∧ (bindText core w jstatement index text).1.engine = w.engine
      ∧ (bindBlob core w jstatement index bytes n).2 = core.SQLITE_RANGE
      ∧ (bindBlob core w jstatement index bytes n).1.engine = w.engine
      ∧ bindZeroBlob core w jstatement index n
        = (w.invoke (Call.sqlite3_bind_zeroblob jstatement index n) w.engine,
            core.SQLITE_RANGE) := by
  have hout' : index < 1 ∨ (st.parameters.length : Int) < index := by
    simpa [bindParameterCount, core, Core.parameterCount, hlive] using hout
  have hbind : ∀ value, w.engine.bind jstatement index value = (w.engine, 25) := by
    intro value
    simp [Core.bind, hlive, hout']
  have hbind' : ∀ value, w.next.2.engine.bind jstatement index value = (w.engine, 25) := by
    intro value
    rw [next_engine]
    exact hbind value
  refine ⟨?_, ?_, ?_, ?_, ?_, ?_, ?_, ?_, ?_⟩
  · simp [bindInt, core, hbind]
  · simp [bindInt64, core, hbind]
  · simp [bindDouble, core, hbind]
  · simp [bindNull, core, hbind]
  · simp [bindText, core, GetStringUTFChars, hbind']
  · simp [bindText, core, GetStringUTFChars, hbind', World.invoke]
  · cases hn : w.next.1 <;>
      simp [bindBlob, core, AutoJByteArray.new, AutoJByteArray.ptr, AutoJByteArray.length,
        AutoJByteArray.delete, GetByteArrayElements, ReleaseByteArrayElements,
        throwOutOfMemoryError, ThrowNew, World.invoke, World.emit, next_engine, hn, hbind]
  · cases hn : w.next.1 <;>
      simp [bindBlob, core, AutoJByteArray.new, AutoJByteArray.ptr, AutoJByteArray.length,
        AutoJByteArray.delete, GetByteArrayElements, ReleaseByteArrayElements,
        throwOutOfMemoryError, ThrowNew, World.invoke, World.emit, next_engine, hn, hbind]
  · simp [bindZeroBlob, core, hbind]

/-- Witness of C11: indices 0 and 3 of the two-parameter statement 2. -/
theorem bind_out_of_range_witness :
    statementWorld.engine.live 2
        = some { inserts := false, parameters := [Value.null, Value.null] }
      ∧ (bindParameterCount core statementWorld 2).2 = 2
      ∧ (bindInt64 core statementWorld 2 0 42).2 = 25
      ∧ (bindInt64 core statementWorld 2 3 42).2 = 25
      ∧ (bindInt64 core statementWorld 2 2 42).2 = 0 :=
  ⟨by decide, by decide,
    congrArg Prod.snd (bind_out_of_range statementWorld 2 0 0 0 42 0 "" []
      { inserts := false, parameters := [Value.null, Value.null] } (by decide)
      (by decide)).2.1,
    congrArg Prod.snd (bind_out_of_range statementWorld 2 3 0 0 42 0 "" []
      { inserts := false, parameters := [Value.null, Value.null] } (by decide)
      (by decide)).2.1,
    by decide⟩

theorem inRange_false (size : Nat) (offset n : jint) (h : (size : Int) < offset + n) :
    Core.inRange size offset n = false := by
  have : ¬ offset + n ≤ (size : Int) := not_le.mpr h
  simp [Core.inRange, this]

/-- C13: over the engine of the spec, for every open blob handle of size `n`, the size
`blobBytes` returns, and every offset and length with `offset + length > n`, `blobRead`
and `blobWrite` return the range error `SQLITE_RANGE` and transfer nothing: the
destination array is returned as it was and the engine, so the blob, is unchanged. -/
theorem blob_transfer_out_of_range (w : World Core) (jBlob : jlong) (blob : List jbyte)
    (offset length arrayOffset : jint) (array : jbyteArray)
    (hopen : w.engine.blobs jBlob = some blob)
    (hout : (blobBytes core w jBlob).2 < offset + length) :
    (∃ w', blobRead core w jBlob offset array arrayOffset length
          = Except.ok (w', { array := array, result := core.SQLITE_RANGE })
        ∧ w'.engine = w.engine)
      ∧ (blobWrite core w jBlob offset array arrayOffset length).2 = core.SQLITE_RANGE
      ∧ (blobWrite core w jBlob offset array arrayOffset length).1.engine = w.engine := by
  have hsize : ((blob.length : Nat) : Int) < offset + length := by
    simpa [blobBytes, core, hopen] using hout
  have hr := inRange_false blob.length offset length hsize
  have hread : Core.blobRead w.engine jBlob length offset = (w.engine, 25, none) := by
    simp [Core.blobRead, hopen, hr]
  have hwrite : ∀ z, Core.blobWrite w.engine jBlob z length offset = (w.engine, 25) := by
    intro z
    cases z <;> simp [Core.blobWrite, hopen, hr]
  refine ⟨⟨ReleaseByteArrayElements ((w.next.2.emit (Event.GetByteArrayElements array)).invoke
    (Call.sqlite3_blob_read jBlob length offset) w.engine) array ReleaseMode.copyBack, ?_, rfl⟩,
    ?_, ?_⟩
  · cases hn : w.next.1 <;>
      simp [blobRead, core, GetByteArrayElements, World.emit, next_engine, hread, hn] <;> rfl
  · simp [blobWrite, core, GetByteArrayElements, World.emit, next_engine, hwrite]
  · simp [blobWrite, core, GetByteArrayElements, next_engine, hwrite, World.invoke,
      ReleaseByteArrayElements, World.emit]

/-- Witness of C13: 3 bytes at offset 2 of the four-byte blob 5. -/
theorem blob_transfer_out_of_range_witness :
    blobWorld.engine.blobs 5 = some [1, 2, 3, 4]
      ∧ (blobBytes core blobWorld 5).2 < (2 : jint) + 3
      ∧ (blobWrite core blobWorld 5 2 [9, 9, 9] 0 3).2 = 25
      ∧ (blobRead core blobWorld 5 2 [0, 0, 0] 0 3).toOption.map (fun r => r.2)
        = some { array := [0, 0, 0], result := 25 } :=
  ⟨by decide, by decide,
    (blob_transfer_out_of_range blobWorld 5 [1, 2, 3, 4] 2 3 0 [9, 9, 9] (by decide)
      (by decide)).2.1,
    by decide⟩

theorem column_off_row (s : Core) (stmt : jlong) (hoff : ¬ OnRow s stmt) :
    s.column stmt = Value.null := by
  unfold Core.column
  cases hlive : s.live stmt with
  | none => rfl
  | some st =>
    cases hp : st.position with
    | row v => exact absurd ⟨st, v, hlive, hp⟩ hoff
    | prepared => simp [hp]
    | done => simp [hp]

theorem step_done (s : Core) (stmt : jlong) (h : (s.step stmt).2 = 101) :
    ∃ st, (s.step stmt).1.live stmt = some st ∧ st.position = Position.done := by
  unfold Core.step at h ⊢
  cases hlive : s.live stmt with
  | none => simp [hlive] at h
  | some st =>
    have hf := live_finalized s stmt st hlive
    simp only [hlive] at h ⊢
    by_cases hd : st.position = Position.done
    · simp only [hd, ↓reduceIte]
      exact ⟨st, hlive, hd⟩
    · simp only [hd, ↓reduceIte] at h ⊢
      by_cases hi : st.inserts = true
      · simp only [hi, ↓reduceIte]
        exact ⟨_, live_put _ _ _ hf, rfl⟩
      · simp only [hi, Bool.false_eq_true, ↓reduceIte] at h ⊢
        cases hg : s.table.get? st.cursor with
        | some v => rw [hg] at h; cases h
        | none =>
          simp only [hg]
          exact ⟨_, live_put _ _ _ hf, rfl⟩

theorem step_of_done (s : Core) (stmt : jlong) (st : Statement) (hlive : s.live stmt = some st)
    (hd : st.position = Position.done) : s.step stmt = (s, 101) := by
  simp [Core.step, hlive, hd]

theorem not_onRow_of_done (s : Core) (stmt : jlong) (st : Statement)
    (hlive : s.live stmt = some st) (hd : st.position = Position.done) : ¬ OnRow s stmt := by
  rintro ⟨st', v, hlive', hv⟩
  rw [hlive] at hlive'
  cases hlive'
  rw [hd] at hv
  cases hv

theorem compile_prepared (text : String) (st : Statement)
    (h : Core.compile text = some st) :
    st.position = Position.prepared ∧ st.finalized = false := by
  unfold Core.compile at h
  split at h
  · cases h; exact ⟨rfl, rfl⟩
  · split at h
    · cases h; exact ⟨rfl, rfl⟩
    · cases h

theorem prepare_position (s : Core) (sql : Option String) (h : jlong)
    (hh : (s.prepare sql).2.2 = some h) :
    ∃ st, (s.prepare sql).1.live h = some st ∧ st.position = Position.prepared := by
  unfold Core.prepare at hh ⊢
  cases hc : sql.bind Core.compile with
  | none => simp [hc] at hh
  | some st =>
    obtain ⟨text, -, htext⟩ := Option.bind_eq_some.mp hc
    obtain ⟨hp, hf⟩ := compile_prepared text st htext
    simp only [hc, Option.some.injEq] at hh ⊢
    subst hh
    exact ⟨st, by simp [Core.live, Core.put, hf], hp⟩

/-- C16: over the engine of the spec, for every statement that is not positioned on a
row and every column index, `columnInt64` and `columnInt` return 0, `columnDouble`
returns 0.0 (the bit pattern 0), and `columnText` and `columnBlob` return the empty value,
which for the wrapper is Java `null`; none of them faults.  A statement is not positioned
on a row after a `step` that returned Done, and right after it was prepared. -/
theorem column_access_off_row (w : World Core) (jstatement jdb : jlong) (index n : jint)
    (sql : Option String) :
    (¬ OnRow w.engine jstatement →
        (columnInt64 core w jstatement index).2 = 0
          ∧ (columnInt core w jstatement index).2 = 0
          ∧ (columnDouble core w jstatement index).2 = 0
          ∧ (columnText core w jstatement index).2 = none
          ∧ ∃ w', columnBlob core w jstatement index = Except.ok (w', none))
      ∧ ((step core w jstatement).2 = core.SQLITE_DONE →
        ¬ OnRow (step core w jstatement).1.engine jstatement)
      ∧ ∀ h, (core.sqlite3_prepare_v2 w.engine jdb sql n).2.2 = some h →
        ¬ OnRow (core.sqlite3_prepare_v2 w.engine jdb sql n).1 h := by
  refine ⟨?_, ?_, ?_⟩
  · intro hoff
    have hc := column_off_row w.engine jstatement hoff
    refine ⟨?_, ?_, ?_, ?_, ?_⟩
    · simp [columnInt64, core, hc, Value.toInt64]
    · simp [columnInt, core, hc, Value.toInt64]
    · simp [columnDouble, core, hc, Value.toDouble]
    · simp [columnText, core, hc, Value.toText, NewStringUTF]
    · exact ⟨_, by simp [columnBlob, core, hc, Value.toBlob]; rfl⟩
  · intro hdone
    obtain ⟨st, hlive, hd⟩ := step_done w.engine jstatement hdone
    exact not_onRow_of_done _ _ st hlive hd
  · intro h hh
    obtain ⟨st, hlive, hp⟩ := prepare_position w.engine sql h hh
    rintro ⟨st', v, hlive', hv⟩
    rw [show (core.sqlite3_prepare_v2 w.engine jdb sql n).1 = (w.engine.prepare sql).1 from rfl,
      hlive] at hlive'
    cases hlive'
    rw [hp] at hv
    cases hv

/-- Witness of C16: statement 2 of `statementWorld` has not been stepped. -/
theorem column_access_off_row_witness :
    ¬ OnRow statementWorld.engine 2
      ∧ (columnInt64 core statementWorld 2 0).2 = 0
      ∧ (columnText core statementWorld 2 0).2 = none :=
  have hoff : ¬ OnRow statementWorld.engine 2 := by
    rintro ⟨st, v, hlive, hv⟩
    have : statementWorld.engine.live 2
        = some { inserts := false, parameters := [Value.null, Value.null] } := by decide
    rw [this] at hlive
    cases hlive
    cases hv
  ⟨hoff, ((column_access_off_row statementWorld 2 1 0 0 none).1 hoff).1,
    ((column_access_off_row statementWorld 2 1 0 0 none).1 hoff).2.2.2.1⟩

theorem step_engine (w : World Core) (stmt : jlong) :
    (step core w stmt).1.engine = (w.engine.step stmt).1
      ∧ (step core w stmt).2 = (w.engine.step stmt).2 :=
  ⟨rfl, rfl⟩

theorem steps_stay_done (w : World Core) (stmt : jlong) (n : Nat)
    (hdone : ∃ st, w.engine.live stmt = some st ∧ st.position = Position.done) :
    ∃ st, ((fun w' => (step core w' stmt).1)^[n] w).engine.live stmt = some st
      ∧ st.position = Position.done := by
  induction n generalizing w with
  | zero => exact hdone
  | succ n ih =>
    rw [Function.iterate_succ_apply]
    apply ih
    obtain ⟨st, hlive, hd⟩ := hdone
    rw [(step_engine w stmt).1, step_of_done w.engine stmt st hlive hd]
    exact ⟨st, hlive, hd⟩

theorem reset_then_step (s : Core) (stmt : jlong) (st : Statement)
    (hlive : s.live stmt = some st) (hsel : st.inserts = false) :
    ((s.reset stmt).1.step stmt).2 = (if s.table = [] then 101 else 100)
      ∧ ((s.reset stmt).1.step stmt).1.column stmt = s.table.headD Value.null := by
  have hf := live_finalized s stmt st hlive
  have hr : s.reset stmt
      = (s.put stmt { st with cursor := 0, position := Position.prepared }, 0) := by
    simp [Core.reset, hlive]
  have hl : (s.put stmt { st with cursor := 0, position := Position.prepared }).live stmt
      = some { st with cursor := 0, position := Position.prepared } :=
    live_put _ _ _ hf
  have htable : (s.put stmt { st with cursor := 0, position := Position.prepared }).table
      = s.table := rfl
  rw [hr]
  cases ht : s.table with
  | nil =>
    simp [Core.step, hl, hsel, htable, ht, Core.column, Core.live, Core.put, hf]
  | cons v rest =>
    simp [Core.step, hl, hsel, htable, ht, Core.column, Core.live, Core.put, hf]

/-- C17: over the engine of the spec, once `step` has returned Done on a statement,
each of any number of further `step`s on it, with no `reset` between, returns Done; and
for a live `SELECT`, `reset` followed by `step` restarts the iteration: `step` returns Row
and the statement is positioned on the first row of the table (or returns Done when the
table is empty). -/
theorem step_done_repeats_and_reset_restarts (w : World Core) (jstatement : jlong) :
    ((step core w jstatement).2 = core.SQLITE_DONE →
        ∀ n, (step core ((fun w' => (step core w' jstatement).1)^[n]
          (step core w jstatement).1) jstatement).2 = core.SQLITE_DONE)
      ∧ ∀ st, w.engine.live jstatement = some st → st.inserts = false →
        (step core (reset core w jstatement).1 jstatement).2
            = (if w.engine.table = [] then core.SQLITE_DONE else core.SQLITE_ROW)
          ∧ (step core (reset core w jstatement).1 jstatement).1.engine.column jstatement
            = w.engine.table.headD Value.null := by
  constructor
  · intro hdone n
    obtain ⟨st, hlive, hd⟩ := steps_stay_done (step core w jstatement).1 jstatement n
      (step_done w.engine jstatement hdone)
    rw [(step_engine _ jstatement).2, step_of_done _ jstatement st hlive hd]
    rfl
  · intro st hlive hsel
    exact reset_then_step w.engine jstatement st hlive hsel

/-- Witness of C17: the `SELECT` 2 over the table `7, 8` is stepped to Done (Row, Row,
Done), stepped three more times, then reset and stepped. -/
theorem step_done_repeats_and_reset_restarts_witness :
    (step core (step core (step core statementWorld 2).1 2).1 2).2 = 101
      ∧ (step core ((fun w' => (step core w' 2).1)^[3]
          (step core (step core (step core statementWorld 2).1 2).1 2).1) 2).2 = 101
      ∧ (step core (reset core (step core (step core statementWorld 2).1 2).1 2).1 2).2 = 100
      ∧ (columnInt64 core
          (step core (reset core (step core (step core statementWorld 2).1 2).1 2).1 2).1
          2 0).2 = 7 :=
  ⟨by decide,
    (step_done_repeats_and_reset_restarts (step core (step core statementWorld 2).1 2).1 2).1
      (by decide) 3,
    by decide, by decide⟩

theorem splice_slice {α : Type} (xs data : List α) (pos : Nat)
    (hpos : pos + data.length ≤ xs.length) :
    ((xs.take pos ++ data ++ xs.drop (pos + data.length)).drop pos).take data.length
      = data := by
  have hl : (xs.take pos).length = pos := by rw [List.length_take]; omega
  rw [List.append_assoc]
  generalize xs.take pos = A at hl
  subst hl
  rw [List.drop_left, List.take_left]

theorem splice_length {α : Type} (xs data : List α) (pos : Nat)
    (hpos : pos + data.length ≤ xs.length) :
    (xs.take pos ++ data ++ xs.drop (pos + data.length)).length = xs.length := by
  simp only [List.length_append, List.length_take, List.length_drop]
  omega

theorem inRange_iff (size : Nat) (offset n : Int) :
    Core.inRange size offset n = true ↔ 0 ≤ offset ∧ 0 ≤ n ∧ offset + n ≤ size := by
  simp [Core.inRange, and_assoc]

/-- What a successful `write` of the engine of the spec has done. -/
theorem blobWrite_ok (s : Core) (blob : jlong) (z : List jbyte) (n offset : Int)
    (h : (s.blobWrite blob (some z) n offset).2 = 0) :
    ∃ bytes, s.blobs blob = some bytes ∧ Core.inRange bytes.length offset n = true
      ∧ n.toNat ≤ z.length
      ∧ (s.blobWrite blob (some z) n offset).1 = s.putBlob blob (some
          (bytes.take offset.toNat ++ z.take n.toNat ++ bytes.drop (offset.toNat + n.toNat))) := by
  unfold Core.blobWrite at h ⊢
  cases hb : s.blobs blob with
  | none => simp [hb] at h
  | some bytes =>
    simp only [hb] at h ⊢
    by_cases hr : Core.inRange bytes.length offset n = true
    · by_cases hz : n.toNat ≤ z.length
      · exact ⟨bytes, rfl, hr, hz, by simp [hr, hz]⟩
      · simp [hr, hz] at h
    · simp [hr] at h

/-- A `read` of the engine of the spec over the range just written gives the bytes
written. -/
theorem blobRead_after_write (s : Core) (blob : jlong) (z : List jbyte) (n offset : Int)
    (h : (s.blobWrite blob (some z) n offset).2 = 0) :
    (s.blobWrite blob (some z) n offset).1.blobRead blob n offset
      = ((s.blobWrite blob (some z) n offset).1, 0, some (z.take n.toNat)) := by
  obtain ⟨bytes, hb, hr, hz, hs⟩ := blobWrite_ok s blob z n offset h
  have hr2 := (inRange_iff _ _ _).1 hr
  have hlen : (z.take n.toNat).length = n.toNat := by rw [List.length_take]; omega
  have hpos : offset.toNat + (z.take n.toNat).length ≤ bytes.length := by
    rw [hlen]; omega
  have hsl := splice_slice bytes (z.take n.toNat) offset.toNat hpos
  have hln := splice_length bytes (z.take n.toNat) offset.toNat hpos
  rw [hlen] at hsl hln
  rw [hs]
  simp only [Core.blobRead, Core.putBlob, ↓reduceIte, hln, hr, hsl]

theorem blobWrite_engine (w : World Core) (jBlob : jlong) (offset length sourceOffset : Int)
    (source : jbyteArray) (h0 : w.succeeds 0 = true)
    (hsrc : 0 ≤ sourceOffset ∧ sourceOffset.toNat ≤ source.length) :
    (blobWrite core w jBlob offset source sourceOffset length).2
        = (w.engine.blobWrite jBlob (some (source.drop sourceOffset.toNat)) length offset).2
      ∧ (blobWrite core w jBlob offset source sourceOffset length).1.engine
        = (w.engine.blobWrite jBlob (some (source.drop sourceOffset.toNat)) length offset).1
      ∧ (blobWrite core w jBlob offset source sourceOffset length).1.succeeds 0
        = w.succeeds 1 := by
  obtain ⟨e, t, sc, ind, sz⟩ := w
  cases sc with
  | nil =>
    simp [blobWrite, GetByteArrayElements, World.next, advance, hsrc, World.emit, World.invoke,
      ReleaseByteArrayElements, core, World.succeeds]
  | cons b rest =>
    have hb : b = true := by simpa [World.succeeds] using h0
    subst hb
    simp [blobWrite, GetByteArrayElements, World.next, advance, hsrc, World.emit, World.invoke,
      ReleaseByteArrayElements, core, World.succeeds]

theorem blobRead_stores (w : World Core) (jBlob : jlong) (offset length destinationOffset : Int)
    (destination : jbyteArray) (data : List jbyte) (h0 : w.succeeds 0 = true)
    (hread : w.engine.blobRead jBlob length offset = (w.engine, 0, some data))
    (hdst : 0 ≤ destinationOffset ∧ destinationOffset.toNat + data.length ≤ destination.length) :
    ∃ w', blobRead core w jBlob offset destination destinationOffset length
      = Except.ok (w', { array := destination.take destinationOffset.toNat ++ data
          ++ destination.drop (destinationOffset.toNat + data.length), result := 0 }) := by
  obtain ⟨e, t, sc, ind, sz⟩ := w
  simp only at hread
  cases sc with
  | nil =>
    simp [blobRead, GetByteArrayElements, World.next, World.emit, World.invoke,
      ReleaseByteArrayElements, core, hread, storeBytes, hdst, Except.map, bind, Except.bind,
      pure, Except.pure]
  | cons b rest =>
    have hb : b = true := by simpa [World.succeeds] using h0
    subst hb
    simp [blobRead, GetByteArrayElements, World.next, World.emit, World.invoke,
      ReleaseByteArrayElements, core, hread, storeBytes, hdst, Except.map, bind, Except.bind,
      pure, Except.pure]

/-- C14: over the engine of the spec, for every open blob, offset, length and arrays with
in-range offsets whose elements are obtained, when `blobWrite` of `length` bytes at
`offset` returns `SQLITE_OK`, the `blobRead` of the same `length` at the same `offset`
that follows returns `SQLITE_OK` and leaves in the destination array, from
`destinationOffset` on, exactly the `length` bytes of the source array from
`sourceOffset` on. -/
theorem blob_write_then_read (w : World Core) (jBlob : jlong)
    (offset length sourceOffset destinationOffset : Int) (source destination : jbyteArray)
    (hlen : 0 ≤ length)
    (hsrc : 0 ≤ sourceOffset ∧ sourceOffset + length ≤ source.length)
    (hdst : 0 ≤ destinationOffset ∧ destinationOffset + length ≤ destination.length)
    (h0 : w.succeeds 0 = true) (h1 : w.succeeds 1 = true)
    (hwrite : (blobWrite core w jBlob offset source sourceOffset length).2 = core.SQLITE_OK) :
    ∃ w' r, blobRead core (blobWrite core w jBlob offset source sourceOffset length).1 jBlob
          offset destination destinationOffset length = Except.ok (w', r)
      ∧ r.result = core.SQLITE_OK
      ∧ (r.array.drop destinationOffset.toNat).take length.toNat
        = (source.drop sourceOffset.toNat).take length.toNat := by
  have hs : 0 ≤ sourceOffset ∧ sourceOffset.toNat ≤ source.length := ⟨hsrc.1, by omega⟩
  obtain ⟨hres, heng, hnext⟩ := blobWrite_engine w jBlob offset length sourceOffset source h0 hs
  rw [hres] at hwrite
  have hw : (w.engine.blobWrite jBlob (some (source.drop sourceOffset.toNat)) length offset).2
      = 0 := hwrite
  have hrd := blobRead_after_write w.engine jBlob _ length offset hw
  obtain ⟨bytes, -, -, hz, -⟩ := blobWrite_ok w.engine jBlob _ length offset hw
  have hdl : ((source.drop sourceOffset.toNat).take length.toNat).length = length.toNat := by
    rw [List.length_take]; omega
  rw [← heng] at hrd
  have hfit : 0 ≤ destinationOffset ∧ destinationOffset.toNat
      + ((source.drop sourceOffset.toNat).take length.toNat).length ≤ destination.length :=
    ⟨hdst.1, by rw [hdl]; omega⟩
  obtain ⟨w', hw'⟩ := blobRead_stores _ jBlob offset length destinationOffset destination _
    (by rw [hnext]; exact h1) hrd hfit
  refine ⟨w', _, hw', rfl, ?_⟩
  have := splice_slice destination ((source.drop sourceOffset.toNat).take length.toNat)
    destinationOffset.toNat hfit.2
  simp only [hdl] at this ⊢
  exact this

/-- Witness of C14: the bytes `9, 8` of the source `[7, 9, 8]` from index 1 are written at
offset 1 of the blob 5 of `blobWorld`, and read back into `[0, 0, 0, 0]` from index 2. -/
theorem blob_write_then_read_witness :
    (blobWrite core blobWorld 5 1 [7, 9, 8] 1 2).2 = 0
      ∧ ∃ w' r, blobRead core (blobWrite core blobWorld 5 1 [7, 9, 8] 1 2).1 5 1 [0, 0, 0, 0] 2 2
          = Except.ok (w', r)
        ∧ r.result = core.SQLITE_OK
        ∧ (r.array.drop (2 : Int).toNat).take (2 : Int).toNat
          = (([7, 9, 8] : List jbyte).drop (1 : Int).toNat).take (2 : Int).toNat :=
  ⟨by decide, blob_write_then_read blobWorld 5 1 2 1 2 [7, 9, 8] [0, 0, 0, 0] (by decide)
    (by decide) (by decide) (by decide) (by decide) (by decide)⟩
theorem openV2_quiet (E : Sqlite3 σ) (w : World σ) (jfilename : jstring) (jflags : jint)
    (holder : jarray) (hs : w.script = []) (hsz : w.sizeofSizeT = 8) (hlen : 8 ≤ holder.length) :
    openV2 E w jfilename jflags holder = Except.ok
      (w.invoke (Call.sqlite3_open_v2 (some jfilename) jflags)
          (E.sqlite3_open_v2 w.engine (some jfilename) jflags).1,
        { holder := leBytes 8 (((E.sqlite3_open_v2 w.engine (some jfilename) jflags).2.2.getD 0)
              % 2 ^ (8 * 8)).toNat ++ holder.drop 8,
          result := (E.sqlite3_open_v2 w.engine (some jfilename) jflags).2.1 }) := by
  obtain ⟨e, t, sc, ind, sz⟩ := w
  simp only at hs hsz
  subst hs hsz
  simp [openV2, GetStringUTFChars, World.next, updateHolder, GetPrimitiveArrayCritical,
    World.invoke, toSizeT, hlen]
  rfl

theorem prepareV2_quiet (E : Sqlite3 σ) (w : World σ) (jdb : jlong) (jsql : jstring)
    (jlength : jint) (holder : jarray) (hs : w.script = []) (hsz : w.sizeofSizeT = 8)
    (hlen : 8 ≤ holder.length) :
    prepareV2 E w jdb jsql jlength holder = Except.ok
      (w.invoke (Call.sqlite3_prepare_v2 jdb (some jsql) jlength)
          (E.sqlite3_prepare_v2 w.engine jdb (some jsql) jlength).1,
        { holder := leBytes 8 (((E.sqlite3_prepare_v2 w.engine jdb (some jsql) jlength).2.2.getD 0)
              % 2 ^ (8 * 8)).toNat ++ holder.drop 8,
          result := (E.sqlite3_prepare_v2 w.engine jdb (some jsql) jlength).2.1 }) := by
  obtain ⟨e, t, sc, ind, sz⟩ := w
  simp only at hs hsz
  subst hs hsz
  simp [prepareV2, GetStringUTFChars, World.next, updateHolder, GetPrimitiveArrayCritical,
    World.invoke, toSizeT, hlen]
  rfl

/-- The scenario of the spec at the level of its engine, from the state after `open`. -/
theorem core_scenario (v : jlong) (s1 s2 s3 s4 s5 s6 : Core) (h1 : s1 = { fresh := 2 })
    (h2 : s2 = (s1.prepare (some "INSERT INTO t VALUES (?)")).1)
    (h3 : s3 = (s2.bind 2 1 (Value.integer v)).1) (h4 : s4 = (s3.step 2).1)
    (h5 : s5 = (s4.prepare (some "SELECT a FROM t")).1) (h6 : s6 = (s5.step 3).1) :
    (s1.prepare (some "INSERT INTO t VALUES (?)")).2.2 = some 2
      ∧ (s3.step 2).2 = 101
      ∧ (s4.prepare (some "SELECT a FROM t")).2.2 = some 3
      ∧ (s5.step 3).2 = 100
      ∧ (s6.column 3).toInt64 = v := by
  subst h6 h5 h4 h3 h2 h1
  exact ⟨rfl, rfl, rfl, rfl, rfl⟩

theorem insertThenSelect_eq (v : jlong) : insertThenSelect v = Except.ok (101, 100, v) := by
  have hlen : 8 ≤ (List.replicate 8 (0 : Nat)).length := by decide
  obtain ⟨W1, H1, h1, hs1, hz1, he1, hd1⟩ : ∃ W1 H1,
      openV2 core coreWorld "test.db" 6 (List.replicate 8 0) = Except.ok (W1, H1)
        ∧ W1.script = [] ∧ W1.sizeofSizeT = 8 ∧ W1.engine = { fresh := 2 }
        ∧ jlongAt H1.holder 0 = 1 :=
    ⟨_, _, openV2_quiet core coreWorld _ _ _ rfl rfl hlen, rfl, rfl, rfl, by decide⟩
  obtain ⟨hp2, hr4, hp5, hr6, hc⟩ := core_scenario v _ _ _ _ _ _ rfl rfl rfl rfl rfl rfl
  obtain ⟨W2, H2, h2, hs2, hz2, he2, hd2⟩ : ∃ W2 H2,
      prepareV2 core W1 1 "INSERT INTO t VALUES (?)" (-1) (List.replicate 8 0)
          = Except.ok (W2, H2)
        ∧ W2.script = [] ∧ W2.sizeofSizeT = 8
        ∧ W2.engine = (W1.engine.prepare (some "INSERT INTO t VALUES (?)")).1
        ∧ jlongAt H2.holder 0 = 2 := by
    refine ⟨_, _, prepareV2_quiet core W1 _ _ _ _ hs1 hz1 hlen, hs1, hz1, rfl, ?_⟩
    have : (core.sqlite3_prepare_v2 W1.engine 1 (some "INSERT INTO t VALUES (?)") (-1)).2.2
        = some 2 := by rw [he1]; exact hp2
    simp only [this]
    decide
  rw [he1] at he2
  obtain ⟨W5, H5, h5, he5, hd5⟩ : ∃ W5 H5,
      prepareV2 core (step core (bindInt64 core W2 2 1 v).1 2).1 1 "SELECT a FROM t" (-1)
          (List.replicate 8 0) = Except.ok (W5, H5)
        ∧ W5.engine = (((W2.engine.bind 2 1 (Value.integer v)).1.step 2).1.prepare
            (some "SELECT a FROM t")).1
        ∧ jlongAt H5.holder 0 = 3 := by
    refine ⟨_, _, prepareV2_quiet core _ _ _ _ _ hs2 hz2 hlen, rfl, ?_⟩
    have : (core.sqlite3_prepare_v2 (step core (bindInt64 core W2 2 1 v).1 2).1.engine 1
        (some "SELECT a FROM t") (-1)).2.2 = some 3 := by
      show (((W2.engine.bind 2 1 (Value.integer v)).1.step 2).1.prepare
        (some "SELECT a FROM t")).2.2 = some 3
      rw [he2]; exact hp5
    simp only [this]
    decide
  rw [he2] at he5
  have h4 : (step core (bindInt64 core W2 2 1 v).1 2).2 = 101 := by
    show ((W2.engine.bind 2 1 (Value.integer v)).1.step 2).2 = 101
    rw [he2]; exact hr4
  have h6 : (step core W5 3).2 = 100 := by
    show (W5.engine.step 3).2 = 100
    rw [he5]; exact hr6
  have h7 : (columnInt64 core (step core W5 3).1 3 0).2 = v := by
    show ((W5.engine.step 3).1.column 3).toInt64 = v
    rw [he5]; exact hc
  unfold insertThenSelect
  rw [h1]
  simp only [bind, Except.bind, hd1]
  rw [h2]
  simp only [hd2]
  rw [h5]
  simp only [hd5, h4, h6, h7]
  rfl

/-- C18: over the engine of the spec, for every integer `v`, the scenario that binds `v`
to parameter 1 of an `INSERT` with `bindInt64`, steps it, prepares a `SELECT` and steps it
returns Done for the first step, Row for the second, and `columnInt64(0)` returns exactly
`v`; and for every library, `bindInt64` hands `v` unchanged to `sqlite3_bind_int64` while
`columnInt64` returns the value of `sqlite3_column_int64` unchanged. -/
theorem int64_round_trip (E : Sqlite3 σ) (w : World σ) (jstatement : jlong) (index : jint)
    (v : jlong) :
    insertThenSelect v = Except.ok (core.SQLITE_DONE, core.SQLITE_ROW, v)
      ∧ (bindInt64 E w jstatement index v).1
        = w.invoke (Call.sqlite3_bind_int64 jstatement index v)
          (E.sqlite3_bind_int64 w.engine jstatement index v).1
      ∧ (columnInt64 E w jstatement index).2
        = (E.sqlite3_column_int64 w.engine jstatement index).2 :=
  ⟨insertThenSelect_eq v, rfl, rfl⟩


/-! ## Keys, short circuits and missing elements -/

theorem pragmaKey_negative_head (b : Int) (rest : List jbyte) (hb : -128 ≤ b ∧ b < 0) :
    pragmaKey (b :: rest) = pragmaKey (-1 :: rest) := by
  have h1 : hexPair b = ['f', 'f'] := hexPair_neg b hb.1 hb.2
  have h2 : hexPair (-1) = ['f', 'f'] := hexPair_neg (-1) (by decide) (by decide)
  simp [pragmaKey, List.take_succ_cons, List.flatMap_cons, h1, h2]

/-- C21, refuted for every engine: two 32-byte keys that differ only in a first byte from
0x80 to 0xff (as a `jbyte`, -128 to -1) make `rawKey` pass one and the same statement to
`sqlite3_exec`, the one of the key whose first byte is 0xff. -/
theorem rawKey_conflates_keys (E : Sqlite3 σ) (w : World σ) (jdb : jlong) (b c : Int)
    (rest : List jbyte) (hb : -128 ≤ b ∧ b < 0) (hc : -128 ≤ c ∧ c < 0)
    (hrest : rest.length = 31) (hok : w.succeeds 0 = true) :
    callsOf (rawKey E w jdb (b :: rest) 32)
        = some (World.calls w.trace ++ [Call.sqlite3_exec jdb (some (pragmaKey (-1 :: rest)))])
      ∧ callsOf (rawKey E w jdb (b :: rest) 32) = callsOf (rawKey E w jdb (c :: rest) 32) := by
  have hn : w.next.1 = true := by rw [← succeeds_zero]; exact hok
  have hl : ∀ x : Int, 32 ≤ (x :: rest).length := by
    intro x; simp [hrest]
  rw [rawKey_statement E w jdb (b :: rest) hn (hl b),
    rawKey_statement E w jdb (c :: rest) hn (hl c), pragmaKey_negative_head b rest hb,
    pragmaKey_negative_head c rest hc]
  exact ⟨rfl, rfl⟩

/-- Witness of C21: the distinct keys `80 00 ... 00` and `ff 00 ... 00`. -/
theorem rawKey_conflates_keys_witness :
    highKey ≠ topKey ∧ highKey.length = 32 ∧ topKey.length = 32
      ∧ callsOf (rawKey toy toyWorld 7 highKey 32) = callsOf (rawKey toy toyWorld 7 topKey 32) :=
  ⟨by decide, by decide, by decide,
    (rawKey_conflates_keys toy toyWorld 7 (-128) (-1) (List.replicate 31 0) (by decide)
      (by decide) (by decide) (by decide)).2⟩

/-- C23: `resetAndClearBindings` is `reset` followed by `clearBindings` with a short
circuit.  When `sqlite3_reset` returns a code other than `SQLITE_OK`, that code is
returned, `sqlite3_reset` is the only library call and the library is left as
`sqlite3_reset` left it; otherwise `sqlite3_clear_bindings` is called exactly once, after
`sqlite3_reset`, and its code is returned. -/
theorem resetAndClearBindings_short_circuits (E : Sqlite3 σ) (w : World σ)
    (jstatement : jlong) :
    resetAndClearBindings E w jstatement = resetThenClearBindings E w jstatement
      ∧ ((E.sqlite3_reset w.engine jstatement).2 ≠ E.SQLITE_OK →
        resetAndClearBindings E w jstatement
          = ({ w with
                engine := (E.sqlite3_reset w.engine jstatement).1
                trace := w.trace ++ [Event.call (Call.sqlite3_reset jstatement)] },
              (E.sqlite3_reset w.engine jstatement).2))
      ∧ ((E.sqlite3_reset w.engine jstatement).2 = E.SQLITE_OK →
        resetAndClearBindings E w jstatement
          = ({ w with
                engine := (E.sqlite3_clear_bindings (E.sqlite3_reset w.engine jstatement).1
                  jstatement).1
                trace := w.trace ++ [Event.call (Call.sqlite3_reset jstatement),
                  Event.call (Call.sqlite3_clear_bindings jstatement)] },
              (E.sqlite3_clear_bindings (E.sqlite3_reset w.engine jstatement).1
                jstatement).2)) := by
  refine ⟨?_, ?_, ?_⟩
  · by_cases h : (E.sqlite3_reset w.engine jstatement).2 = E.SQLITE_OK
    · have h' : ¬ E.SQLITE_OK ≠ (E.sqlite3_reset w.engine jstatement).2 := by
        simp [h]
      simp [resetAndClearBindings, resetThenClearBindings, reset, clearBindings, h,
        World.invoke]
    · have h' : E.SQLITE_OK ≠ (E.sqlite3_reset w.engine jstatement).2 := Ne.symm h
      simp [resetAndClearBindings, resetThenClearBindings, reset, h, h', World.invoke]
  · intro h
    have h' : E.SQLITE_OK ≠ (E.sqlite3_reset w.engine jstatement).2 := Ne.symm h
    simp [resetAndClearBindings, h', World.invoke]
  · intro h
    simp [resetAndClearBindings, h, World.invoke]

/-- C26, refuted for every engine: when the elements of the key or value array cannot be
obtained, `OutOfMemoryError` is raised but the function goes on.  `rawKey` reads `key[0]`
through the null pointer; `key`, `rekey` and `bindBlob` call the library all the same,
with a null pointer and the caller's length. -/
theorem unobtained_elements_still_used (E : Sqlite3 σ) (w : World σ) (jdb jstatement : jlong)
    (index : jint) (jkey : jbyteArray) (length : jint) (hnull : w.succeeds 0 = false) :
    rawKey E w jdb jkey 32 = Except.error Fault.nullDereference
      ∧ (key E w jdb jkey length).1.trace = w.trace ++ [Event.GetByteArrayElements jkey,
          Event.ThrowNew "java/lang/OutOfMemoryError" "GetByteArrayElements",
          Event.call (Call.sqlite3_key jdb none length),
          Event.ReleaseByteArrayElements jkey ReleaseMode.JNI_ABORT]
      ∧ (rekey E w jdb jkey length).1.trace = w.trace ++ [Event.GetByteArrayElements jkey,
          Event.ThrowNew "java/lang/OutOfMemoryError" "GetByteArrayElements",
          Event.call (Call.sqlite3_rekey jdb none length),
          Event.ReleaseByteArrayElements jkey ReleaseMode.JNI_ABORT]
      ∧ (bindBlob E w jstatement index jkey length).1.trace
        = w.trace ++ [Event.GetByteArrayElements jkey,
          Event.ThrowNew "java/lang/OutOfMemoryError" "GetByteArrayElements",
          Event.call (Call.sqlite3_bind_blob jstatement index none length),
          Event.ReleaseByteArrayElements jkey ReleaseMode.JNI_ABORT] := by
  have hn : w.next.1 = false := by rw [← succeeds_zero]; exact hnull
  refine ⟨rawKey_null E w jdb jkey hn, ?_, ?_, ?_⟩
  · simp [key, AutoJByteArray.new, AutoJByteArray.ptr, AutoJByteArray.length,
      AutoJByteArray.delete, GetByteArrayElements, ReleaseByteArrayElements,
      throwOutOfMemoryError, ThrowNew, World.invoke, World.emit, next_trace, hn]
  · by_cases hlen : length = 0 <;>
      simp [rekey, AutoJByteArray.new, AutoJByteArray.ptr, AutoJByteArray.length,
        AutoJByteArray.delete, GetByteArrayElements, ReleaseByteArrayElements,
        throwOutOfMemoryError, ThrowNew, World.invoke, World.emit, next_trace, hn, hlen]
  · simp [bindBlob, AutoJByteArray.new, AutoJByteArray.ptr, AutoJByteArray.length,
      AutoJByteArray.delete, GetByteArrayElements, ReleaseByteArrayElements,
      throwOutOfMemoryError, ThrowNew, World.invoke, World.emit, next_trace, hn]

/-- Witness of C26: the stand-in library, with the first `GetByteArrayElements` yielding
null. -/
theorem unobtained_elements_still_used_witness :
    toyWorldNull.succeeds 0 = false
      ∧ rawKey toy toyWorldNull 7 highKey 32 = Except.error Fault.nullDereference
      ∧ World.calls (key toy toyWorldNull 7 [1, 2, 3] 3).1.trace = [Call.sqlite3_key 7 none 3] :=
  ⟨by decide,
    (unobtained_elements_still_used toy toyWorldNull 7 2 1 highKey 3 (by decide)).1,
    by decide⟩

/-! ## Frames of the blob transfers, `databaseStatus` and the mock properties -/

theorem getElem?_splice_outside {α : Type} (xs data : List α) (pos len i : Nat)
    (hlen : data.length ≤ len) (hfit : pos + data.length ≤ xs.length)
    (hout : i < pos ∨ pos + len ≤ i) :
    (xs.take pos ++ data ++ xs.drop (pos + data.length))[i]? = xs[i]? := by
  have hl : (xs.take pos).length = pos := by rw [List.length_take]; omega
  rcases hout with h | h
  · rw [List.append_assoc, List.getElem?_append_left (by omega)]
    simp [List.getElem?_take, h]
  · rw [List.getElem?_append_right (by simp only [List.length_append, hl]; omega)]
    simp only [List.length_append, hl, List.getElem?_drop]
    congr 1
    omega

theorem blobRead_result (E : Sqlite3 σ) (w : World σ) (jBlob : jlong) (jOffset : jint)
    (jDestination : jbyteArray) (jDestinationOffset jLength : jint) :
    blobRead E w jBlob jOffset jDestination jDestinationOffset jLength
      = match (E.sqlite3_blob_read w.engine jBlob jLength jOffset).2.2 with
        | none => Except.ok
            (ReleaseByteArrayElements ((GetByteArrayElements w jDestination).1.invoke
              (Call.sqlite3_blob_read jBlob jLength jOffset)
              (E.sqlite3_blob_read w.engine jBlob jLength jOffset).1) jDestination
              ReleaseMode.copyBack,
            { array := jDestination,
              result := (E.sqlite3_blob_read w.engine jBlob jLength jOffset).2.1 })
        | some data =>
          (storeBytes (GetByteArrayElements w jDestination).2 jDestinationOffset data).map
            fun stored =>
              (ReleaseByteArrayElements ((GetByteArrayElements w jDestination).1.invoke
                (Call.sqlite3_blob_read jBlob jLength jOffset)
                (E.sqlite3_blob_read w.engine jBlob jLength jOffset).1) jDestination
                ReleaseMode.copyBack,
              { array := stored,
                result := (E.sqlite3_blob_read w.engine jBlob jLength jOffset).2.1 }) := by
  have he : (GetByteArrayElements w jDestination).1.engine = w.engine := by
    simp [GetByteArrayElements, World.emit, next_engine]
  unfold blobRead
  simp only [he]
  cases hs : (E.sqlite3_blob_read w.engine jBlob jLength jOffset).2.2 with
  | none =>
    cases hn : w.next.1 <;>
      simp [GetByteArrayElements, hn, bind, Except.bind, pure, Except.pure]
  | some data =>
    cases hst : storeBytes (GetByteArrayElements w jDestination).2 jDestinationOffset data <;>
      simp [hst, bind, Except.bind, pure, Except.pure, Except.map]

/-- C24: for a `blobRead` with `0 ≤ destinationOffset` and `destinationOffset + length ≤
destination.length`, the library storing at most `length` bytes through the pointer it
is given, a call that returns leaves the destination array with its length and with
every element outside `[destinationOffset, destinationOffset + length)` unchanged; and
the call does return when the elements are obtained and `0 ≤ length`.  A `blobWrite`
hands the library the source elements to read and releases them with `JNI_ABORT`, so
nothing is copied back into the source array. -/
theorem blob_transfers_frame (E : Sqlite3 σ) (w : World σ) (jBlob : jlong) (jOffset : jint)
    (jDestination jSource : jbyteArray) (jDestinationOffset jLength : Int)
    (jSourceOffset : jint)
    (hrange : 0 ≤ jDestinationOffset ∧ jDestinationOffset + jLength ≤ jDestination.length)
    (hlibrary : ∀ data, (E.sqlite3_blob_read w.engine jBlob jLength jOffset).2.2 = some data →
      data.length ≤ jLength.toNat) :
    (∀ w' r, blobRead E w jBlob jOffset jDestination jDestinationOffset jLength
        = Except.ok (w', r) →
        r.array.length = jDestination.length
          ∧ ∀ i : Nat, (i : Int) < jDestinationOffset ∨ jDestinationOffset + jLength ≤ i →
            r.array[i]? = jDestination[i]?)
      ∧ (w.succeeds 0 = true → 0 ≤ jLength →
        ∃ w' r, blobRead E w jBlob jOffset jDestination jDestinationOffset jLength
          = Except.ok (w', r))
      ∧ (blobWrite E w jBlob jOffset jSource jSourceOffset jLength).1.trace
        = w.trace ++ [Event.GetByteArrayElements jSource,
          Event.call (Call.sqlite3_blob_write jBlob
            (advance (GetByteArrayElements w jSource).2 jSourceOffset) jLength jOffset),
          Event.ReleaseByteArrayElements jSource ReleaseMode.JNI_ABORT] := by
  refine ⟨?_, ?_, ?_⟩
  · intro w' r hrun
    rw [blobRead_result] at hrun
    cases hs : (E.sqlite3_blob_read w.engine jBlob jLength jOffset).2.2 with
    | none =>
      simp only [hs, Except.ok.injEq, Prod.mk.injEq] at hrun
      rw [← hrun.2]
      exact ⟨rfl, fun _ _ => rfl⟩
    | some data =>
      have hd := hlibrary data hs
      simp only [hs] at hrun
      cases hn : w.next.1 with
      | false =>
        simp [GetByteArrayElements, hn, storeBytes, Except.map, throw, throwThe,
          MonadExceptOf.throw] at hrun
      | true =>
        by_cases hfit : 0 ≤ jDestinationOffset
            ∧ jDestinationOffset.toNat + data.length ≤ jDestination.length
        · simp only [GetByteArrayElements, hn, ↓reduceIte, storeBytes, hfit, and_self, pure,
            Except.pure, Except.map, Except.ok.injEq, Prod.mk.injEq] at hrun
          rw [← hrun.2]
          refine ⟨splice_length _ _ _ hfit.2, fun i hi => ?_⟩
          refine getElem?_splice_outside _ _ _ jLength.toNat i hd hfit.2 ?_
          omega
        · simp [GetByteArrayElements, hn, storeBytes, hfit, Except.map, throw, throwThe,
            MonadExceptOf.throw] at hrun
  · intro hok hlen
    have hn : w.next.1 = true := by rw [← succeeds_zero]; exact hok
    rw [blobRead_result]
    cases hs : (E.sqlite3_blob_read w.engine jBlob jLength jOffset).2.2 with
    | none => exact ⟨_, _, rfl⟩
    | some data =>
      have hd := hlibrary data hs
      have hfit : 0 ≤ jDestinationOffset
          ∧ jDestinationOffset.toNat + data.length ≤ jDestination.length :=
        ⟨hrange.1, by omega⟩
      simp only [GetByteArrayElements, hn, ↓reduceIte, storeBytes, hfit, and_self, pure,
        Except.pure, Except.map]
      exact ⟨_, _, rfl⟩
  · cases hn : w.next.1 <;>
      simp [blobWrite, GetByteArrayElements, ReleaseByteArrayElements, World.invoke,
        World.emit, next_trace, hn]

/-- Witness of C24: two bytes read into a four-byte array from index 1, and a write from
a three-byte array. -/
theorem blob_transfers_frame_witness :
    (blobRead toy toyWorld 3 0 [1, 2, 3, 4] 1 2).toOption.map (fun r => r.2.array)
        = some [1, 9, 9, 4]
      ∧ ∃ w' r, blobRead toy toyWorld 3 0 [1, 2, 3, 4] 1 2 = Except.ok (w', r) :=
  ⟨by decide,
    (blob_transfers_frame toy toyWorld 3 0 [1, 2, 3, 4] [5, 6, 7] 1 2 0 (by decide)
      (by decide)).2.1 (by decide) (by decide)⟩

/-- C22, refuted for every engine: with a two-element `int` holder (8 bytes) whose
elements are obtained, `databaseStatus` never stores the two counters.  Where `size_t`
has 8 bytes, the first `updateHolder` fills both elements with the address of `current`
and the second stores past the end of the array; where it has 4 bytes, the elements
become the addresses of `current` and `highWater`, whatever the library reported. -/
theorem databaseStatus_stores_addresses (E : Sqlite3 σ) (w : World σ) (jdatabase : jlong)
    (op : jint) (reset : jboolean) (holder : jarray) (pCurrent pHighWater : jlong)
    (hholder : holder.length = 8) (h0 : w.succeeds 0 = true) (h1 : w.succeeds 1 = true) :
    (w.sizeofSizeT = 8 →
        databaseStatus E w jdatabase op reset holder pCurrent pHighWater
          = Except.error Fault.outOfBounds)
      ∧ (w.sizeofSizeT = 4 →
        ∃ w', databaseStatus E w jdatabase op reset holder pCurrent pHighWater
          = Except.ok (w',
            { holder := leBytes 4 (pCurrent % 2 ^ 32).toNat
                ++ leBytes 4 (pHighWater % 2 ^ 32).toNat,
              result := (E.sqlite3_db_status w.engine jdatabase op reset).2.1,
              current := (E.sqlite3_db_status w.engine jdatabase op reset).2.2.1.getD 0,
              highWater := (E.sqlite3_db_status w.engine jdatabase op reset).2.2.2.getD 0 })) := by
  obtain ⟨e, t, sc, ind, sz⟩ := w
  have hsc : sc = [] ∨ sc = [true] ∨ ∃ rest, sc = true :: true :: rest := by
    match sc, h0, h1 with
    | [], _, _ => exact Or.inl rfl
    | [true], _, _ => exact Or.inr (Or.inl rfl)
    | true :: true :: rest, _, _ => exact Or.inr (Or.inr ⟨rest, rfl⟩)
    | [false], h0, _ => simp [World.succeeds] at h0
    | false :: _ :: _, h0, _ => simp [World.succeeds] at h0
    | true :: false :: _, _, h1 => simp [World.succeeds] at h1
  have hl4 : ∀ v, (leBytes 4 v).length = 4 := fun v => leBytes_length 4 v
  have hl8 : ∀ v, (leBytes 8 v).length = 8 := fun v => leBytes_length 8 v
  constructor
  · intro h8
    simp only at h8
    subst h8
    rcases hsc with rfl | rfl | ⟨rest, rfl⟩ <;>
      simp [databaseStatus, updateHolder, GetPrimitiveArrayCritical, World.next, World.invoke,
        toSizeT, hholder, hl8, bind, Except.bind, pure, Except.pure, throw, throwThe,
        MonadExceptOf.throw]
  · intro h4
    simp only at h4
    subst h4
    have hd : List.drop 8 holder = [] := List.drop_eq_nil_of_le (by omega)
    have ht : ∀ v, List.take 4 (leBytes 4 v ++ List.drop 4 holder) = leBytes 4 v := by
      intro v
      rw [List.take_left' (hl4 v)]
    rcases hsc with rfl | rfl | ⟨rest, rfl⟩ <;>
      simp [databaseStatus, updateHolder, GetPrimitiveArrayCritical, World.next, World.invoke,
        toSizeT, hholder, hl4, hd, ht, bind, Except.bind, pure, Except.pure]

/-- Witness of C22: the library reports 5 and 9, the locals are at the addresses 1000 and
1004, and the holder is `[0, 0]`. -/
theorem databaseStatus_stores_addresses_witness :
    (databaseStatus reporting toyWorld 7 0 false (List.replicate 8 0) 1000 1004
        = Except.error Fault.outOfBounds)
      ∧ (databaseStatus reporting toyWorld32 7 0 false (List.replicate 8 0) 1000 1004
          ).toOption.map (fun r => (r.2.current, r.2.highWater, jintAt r.2.holder 0,
            jintAt r.2.holder 1)) = some (5, 9, 1000, 1004) :=
  ⟨(databaseStatus_stores_addresses reporting toyWorld 7 0 false (List.replicate 8 0) 1000
      1004 (by decide) (by decide) (by decide)).1 rfl,
    by decide⟩

theorem strcmp_eq_zero (a b : String) : strcmp a b = 0 ↔ a = b := by
  unfold strcmp
  by_cases h : a = b
  · simp [h]
  · simp only [h, ↓reduceIte, iff_false]
    split <;> decide

/-- C27, refuted for every key and default: the tests of `strcmp` are inverted.  With the
string functions succeeding, the mock returns "armeabi-v7a" for the key
"ro.product.cpu.abilist" and "arm64-v8a,armeabi-v7a" for every other key; it never
returns "arm64-v8a" nor the caller's default. -/
theorem SystemProperties_get_inverted (w : World σ) (keyJ defJ : jstring)
    (h0 : w.succeeds 0 = true) (h1 : w.succeeds 1 = true) :
    ∃ w', SystemProperties_get w keyJ defJ = Except.ok (w',
      some (if keyJ = "ro.product.cpu.abilist" then "armeabi-v7a"
        else "arm64-v8a,armeabi-v7a")) := by
  have hn0 : w.next.1 = true := by rw [← succeeds_zero]; exact h0
  have hn1 : w.next.2.next.1 = true := by rw [← succeeds_zero, ← succeeds_succ]; exact h1
  have h32 : ¬ ("ro.product.cpu.abilist32" : String) = "ro.product.cpu.abilist" := by decide
  by_cases hk : keyJ = "ro.product.cpu.abilist"
  · subst hk
    refine ⟨w.next.2.next.2, ?_⟩
    simp [SystemProperties_get, GetStringUTFChars, NewStringUTF, hn0, hn1, strcmp_eq_zero,
      h32, bind, Except.bind, pure, Except.pure]
  · refine ⟨w.next.2.next.2, ?_⟩
    have hk' : ¬ "ro.product.cpu.abilist" = keyJ := fun h => hk h.symm
    simp [SystemProperties_get, GetStringUTFChars, NewStringUTF, hn0, hn1, strcmp_eq_zero,
      hk, hk', bind, Except.bind, pure, Except.pure]

/-- Witness of C27: the three property keys and an unknown key with the default "x". -/
theorem SystemProperties_get_inverted_witness :
    (SystemProperties_get toyWorld "ro.product.cpu.abilist" "x").toOption.map (fun r => r.2)
        = some (some "armeabi-v7a")
      ∧ (SystemProperties_get toyWorld "ro.product.cpu.abilist32" "x").toOption.map
          (fun r => r.2) = some (some "arm64-v8a,armeabi-v7a")
      ∧ (SystemProperties_get toyWorld "ro.product.cpu.abilist64" "x").toOption.map
          (fun r => r.2) = some (some "arm64-v8a,armeabi-v7a")
      ∧ ∃ w', SystemProperties_get toyWorld "ro.build.id" "x"
          = Except.ok (w', some (if ("ro.build.id" : String) = "ro.product.cpu.abilist"
            then "armeabi-v7a" else "arm64-v8a,armeabi-v7a")) :=
  ⟨by decide, by decide, by decide,
    SystemProperties_get_inverted toyWorld "ro.build.id" "x" (by decide) (by decide)⟩

end Selekt
